import Mathlib

/-
A verification development for the SimpleMicroservices order/payment schema
layer (src/models/order.py and src/models/payment.py).

The two source files declare pydantic models; the embedding below gives the
validation semantics that pydantic assigns to those declarations:
  - a field declared with a default (default_factory or a literal default)
    uses the default only when the key is absent from the input mapping;
    a supplied value is validated and used;
  - a field declared with annotation T (non optional) rejects an explicit
    null, even when its declared default is None (defaults are not validated);
  - a field declared Optional[T] accepts an explicit null as the value None;
  - required fields (declared with ...) fail with a missing-field error when
    absent;
  - unknown keys are ignored (the default extra behaviour of pydantic v2);
  - validation collects one error per failing field, in declaration order;
  - a validated model instance carries the set of field names that were
    present in the input (pydantic model fields set).
Identifiers (UUID), dates and instants are modelled as opaque Nat values;
float amounts are modelled as Rat (the spec treats them as plain
decimal-like numeric quantities with no arithmetic guarantees).
Pydantic lax string/number coercions are elided: a value of the wrong
shape is a wrong-type error.
-/

namespace SimpleMicro

/-- Modelled from the spec: the external Address entity (spec section 3),
nested within Person; its own definition (person.py) is not under src and is
consumed by reference as a pre-validated type. -/
structure Address where
  id : Nat
  street : String
  city : String
  state : Option String
  postal_code : String
  country : String
  deriving DecidableEq

/-- Modelled from the spec: the external Person entity (spec section 3) --
identifier, first and last name, email, phone, optional birth date, ordered
sequence of Address records; person.py is not under src and is consumed by
reference as a pre-validated type. -/
structure Person where
  uni : String
  first_name : String
  last_name : String
  email : String
  phone : String
  birth_date : Option Nat
  addresses : List Address
  deriving DecidableEq

/-- Raw wire values appearing in an input mapping. -/
inductive Value where
  | vnull
  | vstr (s : String)
  | vint (n : Int)
  | vnum (q : Rat)
  | vuuid (u : Nat)
  | vdate (d : Nat)
  | vdatetime (t : Nat)
  | vperson (c : Person)
  deriving DecidableEq

/-- A raw input mapping: field name to raw value (first binding wins). -/
abbrev Payload : Type := List (String × Value)

/-- Per-field validation errors, as in pydantic error entries: each names
the offending field. -/
inductive FieldErr where
  | missing (field : String)
  | wrongType (field : String)
  deriving DecidableEq

/-- The error entries contributed by one field check. -/
def errsOf : Except FieldErr α → List FieldErr
  | Except.ok _ => []
  | Except.error e => [e]

/-- Extract a checked value, with a fallback used only on the (excluded)
error side. -/
def getOk (d : α) : Except FieldErr α → α
  | Except.ok a => a
  | Except.error _ => d

/-- UUID field with a server default (default_factory=uuid4): absent means
the fresh default; a supplied value is used. -/
def parseDefUuid (name : String) (dflt : Nat) : Option Value → Except FieldErr Nat
  | none => Except.ok dflt
  | some (Value.vuuid u) => Except.ok u
  | some _ => Except.error (FieldErr.wrongType name)

/-- Datetime field with a server default (default_factory=datetime.utcnow):
absent means the default instant; a supplied value is used. -/
def parseDefDatetime (name : String) (dflt : Nat) : Option Value → Except FieldErr Nat
  | none => Except.ok dflt
  | some (Value.vdatetime t) => Except.ok t
  | some _ => Except.error (FieldErr.wrongType name)

/-- Person field declared with non optional annotation PersonBase but default
None (order customer, payment sender and receiver): absence yields the
unvalidated None default; an explicit null is rejected because the annotation
is not optional. -/
def parseNullDefPerson (name : String) : Option Value → Except FieldErr (Option Person)
  | none => Except.ok none
  | some (Value.vperson c) => Except.ok (some c)
  | some _ => Except.error (FieldErr.wrongType name)

/-- Required string field (declared with ...). -/
def parseReqStr (name : String) : Option Value → Except FieldErr String
  | none => Except.error (FieldErr.missing name)
  | some (Value.vstr s) => Except.ok s
  | some _ => Except.error (FieldErr.wrongType name)

/-- Required int field (declared with ...). -/
def parseReqInt (name : String) : Option Value → Except FieldErr Int
  | none => Except.error (FieldErr.missing name)
  | some (Value.vint n) => Except.ok n
  | some _ => Except.error (FieldErr.wrongType name)

/-- Required float field (declared with ...); an int is coerced. -/
def parseReqNum (name : String) : Option Value → Except FieldErr Rat
  | none => Except.error (FieldErr.missing name)
  | some (Value.vnum q) => Except.ok q
  | some (Value.vint n) => Except.ok (n : Rat)
  | some _ => Except.error (FieldErr.wrongType name)

/-- Required date field (declared with ...). -/
def parseReqDate (name : String) : Option Value → Except FieldErr Nat
  | none => Except.error (FieldErr.missing name)
  | some (Value.vdate d) => Except.ok d
  | some _ => Except.error (FieldErr.wrongType name)

/-- Optional[PersonBase] field of an Update model: absent or explicit null
both validate to None. -/
def parseOptPerson (name : String) : Option Value → Except FieldErr (Option Person)
  | none => Except.ok none
  | some Value.vnull => Except.ok none
  | some (Value.vperson c) => Except.ok (some c)
  | some _ => Except.error (FieldErr.wrongType name)

/-- Optional[str] field of an Update model. -/
def parseOptStr (name : String) : Option Value → Except FieldErr (Option String)
  | none => Except.ok none
  | some Value.vnull => Except.ok none
  | some (Value.vstr s) => Except.ok (some s)
  | some _ => Except.error (FieldErr.wrongType name)

/-- Optional[int] field of an Update model. -/
def parseOptInt (name : String) : Option Value → Except FieldErr (Option Int)
  | none => Except.ok none
  | some Value.vnull => Except.ok none
  | some (Value.vint n) => Except.ok (some n)
  | some _ => Except.error (FieldErr.wrongType name)

/-- Optional[float] field of an Update model; an int is coerced. -/
def parseOptNum (name : String) : Option Value → Except FieldErr (Option Rat)
  | none => Except.ok none
  | some Value.vnull => Except.ok none
  | some (Value.vnum q) => Except.ok (some q)
  | some (Value.vint n) => Except.ok (some (n : Rat))
  | some _ => Except.error (FieldErr.wrongType name)

/-- Optional[date] field (Update models, and birth_date of PaymentBase). -/
def parseOptDate (name : String) : Option Value → Except FieldErr (Option Nat)
  | none => Except.ok none
  | some Value.vnull => Except.ok none
  | some (Value.vdate d) => Except.ok (some d)
  | some _ => Except.error (FieldErr.wrongType name)

/-- Field names present in the input among the model fields: the pydantic
model fields set of the validated instance. -/
def fieldsSetOf (fields : List String) (p : Payload) : List String :=
  fields.filter (fun f => (List.lookup f p).isSome)

/-- Two payloads agree on every listed field name. -/
def agreeOn (fields : List String) (p q : Payload) : Prop :=
  ∀ f ∈ fields, List.lookup f p = List.lookup f q

instance (fields : List String) (p q : Payload) : Decidable (agreeOn fields p q) := by
  unfold agreeOn
  infer_instance

/-- The canonical Order record (OrderBase of src/models/order.py): id with a
server default, customer declared PersonBase but defaulted to None (hence an
Option here), item, quantity, price_per_item and order_date required. -/
structure Order where
  id : Nat
  customer : Option Person
  item : String
  quantity : Int
  price_per_item : Rat
  order_date : Nat
  deriving DecidableEq

/-- Model field names of OrderBase (and OrderCreate), in declaration order. -/
def orderBaseFields : List String :=
  ["id", "customer", "item", "quantity", "price_per_item", "order_date"]

/-- Error entries produced by validating a payload against OrderBase, one per
failing field, in field declaration order. -/
def orderBaseErrs (fresh : Nat) (p : Payload) : List FieldErr :=
  errsOf (parseDefUuid "id" fresh (List.lookup "id" p)) ++
  errsOf (parseNullDefPerson "customer" (List.lookup "customer" p)) ++
  errsOf (parseReqStr "item" (List.lookup "item" p)) ++
  errsOf (parseReqInt "quantity" (List.lookup "quantity" p)) ++
  errsOf (parseReqNum "price_per_item" (List.lookup "price_per_item" p)) ++
  errsOf (parseReqDate "order_date" (List.lookup "order_date" p))

/-- Pydantic validation of a raw mapping against OrderBase; fresh is the
identifier generated for the default_factory of the id field. -/
def orderValidateBase (fresh : Nat) (p : Payload) : Except (List FieldErr) Order :=
  if orderBaseErrs fresh p = [] then
    Except.ok
      ⟨getOk 0 (parseDefUuid "id" fresh (List.lookup "id" p)),
        getOk none (parseNullDefPerson "customer" (List.lookup "customer" p)),
        getOk "" (parseReqStr "item" (List.lookup "item" p)),
        getOk 0 (parseReqInt "quantity" (List.lookup "quantity" p)),
        getOk 0 (parseReqNum "price_per_item" (List.lookup "price_per_item" p)),
        getOk 0 (parseReqDate "order_date" (List.lookup "order_date" p))⟩
  else Except.error (orderBaseErrs fresh p)

/-- OrderCreate subclasses OrderBase changing only schema examples, so its
validation is that of OrderBase. -/
def orderValidateCreate : Nat → Payload → Except (List FieldErr) Order :=
  orderValidateBase

/-- A validated OrderUpdate instance: the optional field values together with
the pydantic model fields set recording which keys were present. -/
structure OrderUpdate where
  customer : Option Person
  item : Option String
  quantity : Option Int
  price_per_item : Option Rat
  order_date : Option Nat
  fieldsSet : List String
  deriving DecidableEq

/-- Model field names of OrderUpdate, in declaration order. -/
def orderUpdateFields : List String :=
  ["customer", "item", "quantity", "price_per_item", "order_date"]

/-- Error entries produced by validating a payload against OrderUpdate. -/
def orderUpdateErrs (p : Payload) : List FieldErr :=
  errsOf (parseOptPerson "customer" (List.lookup "customer" p)) ++
  errsOf (parseOptStr "item" (List.lookup "item" p)) ++
  errsOf (parseOptInt "quantity" (List.lookup "quantity" p)) ++
  errsOf (parseOptNum "price_per_item" (List.lookup "price_per_item" p)) ++
  errsOf (parseOptDate "order_date" (List.lookup "order_date" p))

/-- Pydantic validation of a raw mapping against OrderUpdate: every field is
optional with default None; unknown keys (id, created_at, anything else) are
ignored; the fields set records which model fields were supplied. -/
def orderValidateUpdate (p : Payload) : Except (List FieldErr) OrderUpdate :=
  if orderUpdateErrs p = [] then
    Except.ok
      ⟨getOk none (parseOptPerson "customer" (List.lookup "customer" p)),
        getOk none (parseOptStr "item" (List.lookup "item" p)),
        getOk none (parseOptInt "quantity" (List.lookup "quantity" p)),
        getOk none (parseOptNum "price_per_item" (List.lookup "price_per_item" p)),
        getOk none (parseOptDate "order_date" (List.lookup "order_date" p)),
        fieldsSetOf orderUpdateFields p⟩
  else Except.error (orderUpdateErrs p)

/-- The OrderRead record: all OrderBase fields plus the server audit
timestamps created_at and updated_at. -/
structure OrderRead where
  id : Nat
  customer : Option Person
  item : String
  quantity : Int
  price_per_item : Rat
  order_date : Nat
  created_at : Nat
  updated_at : Nat
  deriving DecidableEq

/-- Model field names of OrderRead, in declaration order. -/
def orderReadFields : List String :=
  ["id", "customer", "item", "quantity", "price_per_item", "order_date",
    "created_at", "updated_at"]

/-- Error entries produced by validating a payload against OrderRead; fresh,
tc and tu are the values the default factories (uuid4, utcnow) would supply
for id, created_at and updated_at. -/
def orderReadErrs (fresh tc tu : Nat) (p : Payload) : List FieldErr :=
  errsOf (parseDefUuid "id" fresh (List.lookup "id" p)) ++
  errsOf (parseNullDefPerson "customer" (List.lookup "customer" p)) ++
  errsOf (parseReqStr "item" (List.lookup "item" p)) ++
  errsOf (parseReqInt "quantity" (List.lookup "quantity" p)) ++
  errsOf (parseReqNum "price_per_item" (List.lookup "price_per_item" p)) ++
  errsOf (parseReqDate "order_date" (List.lookup "order_date" p)) ++
  errsOf (parseDefDatetime "created_at" tc (List.lookup "created_at" p)) ++
  errsOf (parseDefDatetime "updated_at" tu (List.lookup "updated_at" p))

/-- Pydantic validation of a raw mapping against OrderRead. -/
def orderValidateRead (fresh tc tu : Nat) (p : Payload) : Except (List FieldErr) OrderRead :=
  if orderReadErrs fresh tc tu p = [] then
    Except.ok
      ⟨getOk 0 (parseDefUuid "id" fresh (List.lookup "id" p)),
        getOk none (parseNullDefPerson "customer" (List.lookup "customer" p)),
        getOk "" (parseReqStr "item" (List.lookup "item" p)),
        getOk 0 (parseReqInt "quantity" (List.lookup "quantity" p)),
        getOk 0 (parseReqNum "price_per_item" (List.lookup "price_per_item" p)),
        getOk 0 (parseReqDate "order_date" (List.lookup "order_date" p)),
        getOk 0 (parseDefDatetime "created_at" tc (List.lookup "created_at" p)),
        getOk 0 (parseDefDatetime "updated_at" tu (List.lookup "updated_at" p))⟩
  else Except.error (orderReadErrs fresh tc tu p)

/-- Modelled from the spec: project_read (section 4.4) together with the
deferred timestamp assignment of section 4.2 -- a pure total projection of a
canonical record into the Read representation, attaching the server audit
instants; the projection and route code are not under src. -/
def orderProjectRead (o : Order) (tc tu : Nat) : OrderRead :=
  ⟨o.id, o.customer, o.item, o.quantity, o.price_per_item, o.order_date, tc, tu⟩

/-- Modelled from the spec: the creation pipeline (sections 4.2 and 4.4) --
validate_create then project_read at commit instant t, with created_at and
updated_at both set to t. -/
def orderCreateRead (fresh t : Nat) (p : Payload) : Except (List FieldErr) OrderRead :=
  Except.map (fun o => orderProjectRead o t t) (orderValidateCreate fresh p)

/-- Modelled from the spec: merge-time Base-level constraint failures of
section 4.3 -- a supplied explicit null for a field that is required and non
nullable in OrderBase fails validation (customer is nullable in OrderBase and
so may be cleared). -/
def orderMergeErrs (u : OrderUpdate) : List FieldErr :=
  (if u.fieldsSet.contains "item" && u.item.isNone then [FieldErr.wrongType "item"] else []) ++
  (if u.fieldsSet.contains "quantity" && u.quantity.isNone then [FieldErr.wrongType "quantity"] else []) ++
  (if u.fieldsSet.contains "price_per_item" && u.price_per_item.isNone then [FieldErr.wrongType "price_per_item"] else []) ++
  (if u.fieldsSet.contains "order_date" && u.order_date.isNone then [FieldErr.wrongType "order_date"] else [])

/-- Modelled from the spec: the partial merge of section 4.3 (not under src).
Fields absent from the input are left untouched; supplied fields are applied
(an explicit null on the nullable customer field is a deliberate clear); id
and created_at are never modified; updated_at is set to the merge instant t. -/
def orderApplyUpdate (r : OrderRead) (u : OrderUpdate) (t : Nat) : Except (List FieldErr) OrderRead :=
  if orderMergeErrs u = [] then
    Except.ok
      ⟨r.id,
        if u.fieldsSet.contains "customer" then u.customer else r.customer,
        if u.fieldsSet.contains "item" then u.item.getD r.item else r.item,
        if u.fieldsSet.contains "quantity" then u.quantity.getD r.quantity else r.quantity,
        if u.fieldsSet.contains "price_per_item" then u.price_per_item.getD r.price_per_item else r.price_per_item,
        if u.fieldsSet.contains "order_date" then u.order_date.getD r.order_date else r.order_date,
        r.created_at,
        t⟩
  else Except.error (orderMergeErrs u)

/-- Modelled from the spec: a sequence of partial merges, each at its own
instant; a failing merge is terminal for that operation and leaves the stored
record unchanged (section 7, no partial application). -/
def orderApplyUpdates (r : OrderRead) : List (OrderUpdate × Nat) → OrderRead
  | [] => r
  | (u, t) :: rest =>
      orderApplyUpdates
        (match orderApplyUpdate r u t with
          | Except.ok r2 => r2
          | Except.error _ => r)
        rest

/-- The canonical Payment record (PaymentBase of src/models/payment.py): id
with a server default, sender and receiver declared PersonBase but defaulted
to None (hence Options here), amount, currency, status and method required,
birth_date optional at the Payment level. -/
structure Payment where
  id : Nat
  sender : Option Person
  receiver : Option Person
  amount : Rat
  currency : String
  status : String
  method : String
  birth_date : Option Nat
  deriving DecidableEq

/-- Model field names of PaymentBase (and PaymentCreate), in declaration
order. -/
def paymentBaseFields : List String :=
  ["id", "sender", "receiver", "amount", "currency", "status", "method",
    "birth_date"]

/-- Error entries produced by validating a payload against PaymentBase. -/
def paymentBaseErrs (fresh : Nat) (p : Payload) : List FieldErr :=
  errsOf (parseDefUuid "id" fresh (List.lookup "id" p)) ++
  errsOf (parseNullDefPerson "sender" (List.lookup "sender" p)) ++
  errsOf (parseNullDefPerson "receiver" (List.lookup "receiver" p)) ++
  errsOf (parseReqNum "amount" (List.lookup "amount" p)) ++
  errsOf (parseReqStr "currency" (List.lookup "currency" p)) ++
  errsOf (parseReqStr "status" (List.lookup "status" p)) ++
  errsOf (parseReqStr "method" (List.lookup "method" p)) ++
  errsOf (parseOptDate "birth_date" (List.lookup "birth_date" p))

/-- Pydantic validation of a raw mapping against PaymentBase. -/
def paymentValidateBase (fresh : Nat) (p : Payload) : Except (List FieldErr) Payment :=
  if paymentBaseErrs fresh p = [] then
    Except.ok
      ⟨getOk 0 (parseDefUuid "id" fresh (List.lookup "id" p)),
        getOk none (parseNullDefPerson "sender" (List.lookup "sender" p)),
        getOk none (parseNullDefPerson "receiver" (List.lookup "receiver" p)),
        getOk 0 (parseReqNum "amount" (List.lookup "amount" p)),
        getOk "" (parseReqStr "currency" (List.lookup "currency" p)),
        getOk "" (parseReqStr "status" (List.lookup "status" p)),
        getOk "" (parseReqStr "method" (List.lookup "method" p)),
        getOk none (parseOptDate "birth_date" (List.lookup "birth_date" p))⟩
  else Except.error (paymentBaseErrs fresh p)

/-- PaymentCreate subclasses PaymentBase changing only schema examples, so
its validation is that of PaymentBase. -/
def paymentValidateCreate : Nat → Payload → Except (List FieldErr) Payment :=
  paymentValidateBase

/-- A validated PaymentUpdate instance: the optional field values together
with the pydantic model fields set recording which keys were present. -/
structure PaymentUpdate where
  sender : Option Person
  receiver : Option Person
  amount : Option Rat
  currency : Option String
  status : Option String
  method : Option String
  birth_date : Option Nat
  fieldsSet : List String
  deriving DecidableEq

/-- Model field names of PaymentUpdate, in declaration order. -/
def paymentUpdateFields : List String :=
  ["sender", "receiver", "amount", "currency", "status", "method",
    "birth_date"]

/-- Error entries produced by validating a payload against PaymentUpdate. -/
def paymentUpdateErrs (p : Payload) : List FieldErr :=
  errsOf (parseOptPerson "sender" (List.lookup "sender" p)) ++
  errsOf (parseOptPerson "receiver" (List.lookup "receiver" p)) ++
  errsOf (parseOptNum "amount" (List.lookup "amount" p)) ++
  errsOf (parseOptStr "currency" (List.lookup "currency" p)) ++
  errsOf (parseOptStr "status" (List.lookup "status" p)) ++
  errsOf (parseOptStr "method" (List.lookup "method" p)) ++
  errsOf (parseOptDate "birth_date" (List.lookup "birth_date" p))

/-- Pydantic validation of a raw mapping against PaymentUpdate: every field
is optional with default None; unknown keys (id, created_at, anything else)
are ignored; the fields set records which model fields were supplied. -/
def paymentValidateUpdate (p : Payload) : Except (List FieldErr) PaymentUpdate :=
  if paymentUpdateErrs p = [] then
    Except.ok
      ⟨getOk none (parseOptPerson "sender" (List.lookup "sender" p)),
        getOk none (parseOptPerson "receiver" (List.lookup "receiver" p)),
        getOk none (parseOptNum "amount" (List.lookup "amount" p)),
        getOk none (parseOptStr "currency" (List.lookup "currency" p)),
        getOk none (parseOptStr "status" (List.lookup "status" p)),
        getOk none (parseOptStr "method" (List.lookup "method" p)),
        getOk none (parseOptDate "birth_date" (List.lookup "birth_date" p)),
        fieldsSetOf paymentUpdateFields p⟩
  else Except.error (paymentUpdateErrs p)

/-- The PaymentRead record: all PaymentBase fields plus the server audit
timestamps created_at and updated_at. -/
structure PaymentRead where
  id : Nat
  sender : Option Person
  receiver : Option Person
  amount : Rat
  currency : String
  status : String
  method : String
  birth_date : Option Nat
  created_at : Nat
  updated_at : Nat
  deriving DecidableEq

/-- Model field names of PaymentRead, in declaration order. -/
def paymentReadFields : List String :=
  ["id", "sender", "receiver", "amount", "currency", "status", "method",
    "birth_date", "created_at", "updated_at"]

/-- Error entries produced by validating a payload against PaymentRead. -/
def paymentReadErrs (fresh tc tu : Nat) (p : Payload) : List FieldErr :=
  errsOf (parseDefUuid "id" fresh (List.lookup "id" p)) ++
  errsOf (parseNullDefPerson "sender" (List.lookup "sender" p)) ++
  errsOf (parseNullDefPerson "receiver" (List.lookup "receiver" p)) ++
  errsOf (parseReqNum "amount" (List.lookup "amount" p)) ++
  errsOf (parseReqStr "currency" (List.lookup "currency" p)) ++
  errsOf (parseReqStr "status" (List.lookup "status" p)) ++
  errsOf (parseReqStr "method" (List.lookup "method" p)) ++
  errsOf (parseOptDate "birth_date" (List.lookup "birth_date" p)) ++
  errsOf (parseDefDatetime "created_at" tc (List.lookup "created_at" p)) ++
  errsOf (parseDefDatetime "updated_at" tu (List.lookup "updated_at" p))

/-- Pydantic validation of a raw mapping against PaymentRead. -/
def paymentValidateRead (fresh tc tu : Nat) (p : Payload) : Except (List FieldErr) PaymentRead :=
  if paymentReadErrs fresh tc tu p = [] then
    Except.ok
      ⟨getOk 0 (parseDefUuid "id" fresh (List.lookup "id" p)),
        getOk none (parseNullDefPerson "sender" (List.lookup "sender" p)),
        getOk none (parseNullDefPerson "receiver" (List.lookup "receiver" p)),
        getOk 0 (parseReqNum "amount" (List.lookup "amount" p)),
        getOk "" (parseReqStr "currency" (List.lookup "currency" p)),
        getOk "" (parseReqStr "status" (List.lookup "status" p)),
        getOk "" (parseReqStr "method" (List.lookup "method" p)),
        getOk none (parseOptDate "birth_date" (List.lookup "birth_date" p)),
        getOk 0 (parseDefDatetime "created_at" tc (List.lookup "created_at" p)),
        getOk 0 (parseDefDatetime "updated_at" tu (List.lookup "updated_at" p))⟩
  else Except.error (paymentReadErrs fresh tc tu p)

/-- Modelled from the spec: project_read for Payment (section 4.4) together
with the deferred timestamp assignment of section 4.2; the projection and
route code are not under src. -/
def paymentProjectRead (o : Payment) (tc tu : Nat) : PaymentRead :=
  ⟨o.id, o.sender, o.receiver, o.amount, o.currency, o.status, o.method,
    o.birth_date, tc, tu⟩

/-- Modelled from the spec: the creation pipeline for Payment (sections 4.2
and 4.4) -- validate_create then project_read at commit instant t. -/
def paymentCreateRead (fresh t : Nat) (p : Payload) : Except (List FieldErr) PaymentRead :=
  Except.map (fun o => paymentProjectRead o t t) (paymentValidateCreate fresh p)

/-- Modelled from the spec: merge-time Base-level constraint failures of
section 4.3 for Payment -- an explicit null supplied for a required non
nullable PaymentBase field fails; sender, receiver and birth_date are
nullable in PaymentBase and may be cleared. -/
def paymentMergeErrs (u : PaymentUpdate) : List FieldErr :=
  (if u.fieldsSet.contains "amount" && u.amount.isNone then [FieldErr.wrongType "amount"] else []) ++
  (if u.fieldsSet.contains "currency" && u.currency.isNone then [FieldErr.wrongType "currency"] else []) ++
  (if u.fieldsSet.contains "status" && u.status.isNone then [FieldErr.wrongType "status"] else []) ++
  (if u.fieldsSet.contains "method" && u.method.isNone then [FieldErr.wrongType "method"] else [])

/-- Modelled from the spec: the partial merge of section 4.3 for Payment (not
under src). Fields absent from the input are left untouched; supplied fields
are applied (an explicit null on a nullable field is a deliberate clear); id
and created_at are never modified; updated_at is set to the merge instant t. -/
def paymentApplyUpdate (r : PaymentRead) (u : PaymentUpdate) (t : Nat) : Except (List FieldErr) PaymentRead :=
  if paymentMergeErrs u = [] then
    Except.ok
      ⟨r.id,
        if u.fieldsSet.contains "sender" then u.sender else r.sender,
        if u.fieldsSet.contains "receiver" then u.receiver else r.receiver,
        if u.fieldsSet.contains "amount" then u.amount.getD r.amount else r.amount,
        if u.fieldsSet.contains "currency" then u.currency.getD r.currency else r.currency,
        if u.fieldsSet.contains "status" then u.status.getD r.status else r.status,
        if u.fieldsSet.contains "method" then u.method.getD r.method else r.method,
        if u.fieldsSet.contains "birth_date" then u.birth_date else r.birth_date,
        r.created_at,
        t⟩
  else Except.error (paymentMergeErrs u)

/-- Modelled from the spec: a sequence of Payment partial merges, each at its
own instant; a failing merge leaves the stored record unchanged. -/
def paymentApplyUpdates (r : PaymentRead) : List (PaymentUpdate × Nat) → PaymentRead
  | [] => r
  | (u, t) :: rest =>
      paymentApplyUpdates
        (match paymentApplyUpdate r u t with
          | Except.ok r2 => r2
          | Except.error _ => r)
        rest

/-- A concrete valid Person used by the concrete scenarios. -/
def adaP : Person :=
  ⟨"abc1234", "Ada", "Lovelace", "ada@example.com", "+1-212-555-0199",
    some 100, [⟨1, "123 Main St", "London", none, "SW1A 1AA", "UK"⟩]⟩

/-- A second concrete valid Person. -/
def babbageP : Person :=
  ⟨"xyz5678", "Charles", "Babbage", "charles@example.com", "+1-212-555-0123",
    some 90, [⟨2, "456 High St", "Cambridge", none, "CB2 1TN", "UK"⟩]⟩

/-- Concrete valid Order create payload with no client id. -/
def payOrderFull : Payload :=
  [("customer", Value.vperson adaP), ("item", Value.vstr "Laptop"),
    ("quantity", Value.vint 2), ("price_per_item", Value.vnum 999),
    ("order_date", Value.vdate 738)]

/-- Concrete valid Order create payload that also supplies an id. -/
def payOrderWithId : Payload := ("id", Value.vuuid 7) :: payOrderFull

/-- Concrete Order create payload whose item is the empty string. -/
def payOrderEmptyItem : Payload :=
  [("customer", Value.vperson adaP), ("item", Value.vstr ""),
    ("quantity", Value.vint 2), ("price_per_item", Value.vnum 999),
    ("order_date", Value.vdate 738)]

/-- Concrete valid Order create payload with no customer key. -/
def payOrderNoCust : Payload :=
  [("item", Value.vstr "Laptop"), ("quantity", Value.vint 2),
    ("price_per_item", Value.vnum 999), ("order_date", Value.vdate 738)]

/-- Concrete valid Payment create payload with no client id. -/
def payPayFull : Payload :=
  [("sender", Value.vperson adaP), ("receiver", Value.vperson babbageP),
    ("amount", Value.vnum 150), ("currency", Value.vstr "USD"),
    ("status", Value.vstr "completed"), ("method", Value.vstr "credit card")]

/-- Concrete valid Payment create payload that also supplies an id. -/
def payPayWithId : Payload := ("id", Value.vuuid 9) :: payPayFull

/-- Concrete valid Payment create payload with no sender key. -/
def payPayNoSender : Payload :=
  [("receiver", Value.vperson babbageP), ("amount", Value.vnum 150),
    ("currency", Value.vstr "USD"), ("status", Value.vstr "completed"),
    ("method", Value.vstr "credit card")]

/-- Concrete valid Payment create payload with no receiver key. -/
def payPayNoReceiver : Payload :=
  [("sender", Value.vperson adaP), ("amount", Value.vnum 150),
    ("currency", Value.vstr "USD"), ("status", Value.vstr "completed"),
    ("method", Value.vstr "credit card")]

/-- A concrete stored Order record. -/
def rOrder1 : OrderRead := ⟨1, none, "Laptop", 5, 999, 738, 10, 20⟩

/-- A validated OrderUpdate supplying only quantity 5. -/
def uOrderQty5 : OrderUpdate := ⟨none, none, some 5, none, none, ["quantity"]⟩

/-- A validated OrderUpdate supplying only quantity 7. -/
def uOrderQty7 : OrderUpdate := ⟨none, none, some 7, none, none, ["quantity"]⟩

/-- A concrete stored Payment record. -/
def rPay1 : PaymentRead :=
  ⟨1, some adaP, some babbageP, 150, "USD", "completed", "credit card",
    none, 10, 20⟩

/-- A validated PaymentUpdate supplying only amount 200. -/
def uPayAmt : PaymentUpdate :=
  ⟨none, none, some 200, none, none, none, none, ["amount"]⟩

theorem orderValidateBase_ok {fresh : Nat} {p : Payload} {o : Order}
    (h : orderValidateBase fresh p = Except.ok o) :
    o = ⟨getOk 0 (parseDefUuid "id" fresh (List.lookup "id" p)),
      getOk none (parseNullDefPerson "customer" (List.lookup "customer" p)),
      getOk "" (parseReqStr "item" (List.lookup "item" p)),
      getOk 0 (parseReqInt "quantity" (List.lookup "quantity" p)),
      getOk 0 (parseReqNum "price_per_item" (List.lookup "price_per_item" p)),
      getOk 0 (parseReqDate "order_date" (List.lookup "order_date" p))⟩ := by
  by_cases hc : orderBaseErrs fresh p = []
  · rw [orderValidateBase, if_pos hc] at h
    exact (Except.ok.inj h).symm
  · rw [orderValidateBase, if_neg hc] at h
    simp at h

theorem orderValidateBase_err {fresh : Nat} {p : Payload}
    (hne : orderBaseErrs fresh p ≠ []) :
    orderValidateBase fresh p = Except.error (orderBaseErrs fresh p) := by
  rw [orderValidateBase, if_neg hne]

theorem paymentValidateBase_ok {fresh : Nat} {p : Payload} {o : Payment}
    (h : paymentValidateBase fresh p = Except.ok o) :
    o = ⟨getOk 0 (parseDefUuid "id" fresh (List.lookup "id" p)),
      getOk none (parseNullDefPerson "sender" (List.lookup "sender" p)),
      getOk none (parseNullDefPerson "receiver" (List.lookup "receiver" p)),
      getOk 0 (parseReqNum "amount" (List.lookup "amount" p)),
      getOk "" (parseReqStr "currency" (List.lookup "currency" p)),
      getOk "" (parseReqStr "status" (List.lookup "status" p)),
      getOk "" (parseReqStr "method" (List.lookup "method" p)),
      getOk none (parseOptDate "birth_date" (List.lookup "birth_date" p))⟩ := by
  by_cases hc : paymentBaseErrs fresh p = []
  · rw [paymentValidateBase, if_pos hc] at h
    exact (Except.ok.inj h).symm
  · rw [paymentValidateBase, if_neg hc] at h
    simp at h

theorem paymentValidateBase_err {fresh : Nat} {p : Payload}
    (hne : paymentBaseErrs fresh p ≠ []) :
    paymentValidateBase fresh p = Except.error (paymentBaseErrs fresh p) := by
  rw [paymentValidateBase, if_neg hne]

theorem fieldsSetOf_congr {fields : List String} {p q : Payload}
    (h : agreeOn fields p q) : fieldsSetOf fields p = fieldsSetOf fields q := by
  unfold fieldsSetOf
  apply List.filter_congr
  intro f hf
  rw [h f hf]

theorem orderValidateBase_congr (fresh : Nat) {p q : Payload}
    (h : agreeOn orderBaseFields p q) :
    orderValidateBase fresh p = orderValidateBase fresh q := by
  have h1 := h "id" (by decide)
  have h2 := h "customer" (by decide)
  have h3 := h "item" (by decide)
  have h4 := h "quantity" (by decide)
  have h5 := h "price_per_item" (by decide)
  have h6 := h "order_date" (by decide)
  simp only [orderValidateBase, orderBaseErrs, h1, h2, h3, h4, h5, h6]

theorem orderValidateUpdate_congr {p q : Payload}
    (h : agreeOn orderUpdateFields p q) :
    orderValidateUpdate p = orderValidateUpdate q := by
  have h1 := h "customer" (by decide)
  have h2 := h "item" (by decide)
  have h3 := h "quantity" (by decide)
  have h4 := h "price_per_item" (by decide)
  have h5 := h "order_date" (by decide)
  have hfs : fieldsSetOf orderUpdateFields p = fieldsSetOf orderUpdateFields q :=
    fieldsSetOf_congr h
  simp only [orderValidateUpdate, orderUpdateErrs, h1, h2, h3, h4, h5, hfs]

theorem orderValidateRead_congr (fresh tc tu : Nat) {p q : Payload}
    (h : agreeOn orderReadFields p q) :
    orderValidateRead fresh tc tu p = orderValidateRead fresh tc tu q := by
  have h1 := h "id" (by decide)
  have h2 := h "customer" (by decide)
  have h3 := h "item" (by decide)
  have h4 := h "quantity" (by decide)
  have h5 := h "price_per_item" (by decide)
  have h6 := h "order_date" (by decide)
  have h7 := h "created_at" (by decide)
  have h8 := h "updated_at" (by decide)
  simp only [orderValidateRead, orderReadErrs, h1, h2, h3, h4, h5, h6, h7, h8]

theorem paymentValidateBase_congr (fresh : Nat) {p q : Payload}
    (h : agreeOn paymentBaseFields p q) :
    paymentValidateBase fresh p = paymentValidateBase fresh q := by
  have h1 := h "id" (by decide)
  have h2 := h "sender" (by decide)
  have h3 := h "receiver" (by decide)
  have h4 := h "amount" (by decide)
  have h5 := h "currency" (by decide)
  have h6 := h "status" (by decide)
  have h7 := h "method" (by decide)
  have h8 := h "birth_date" (by decide)
  simp only [paymentValidateBase, paymentBaseErrs, h1, h2, h3, h4, h5, h6, h7, h8]

theorem paymentValidateUpdate_congr {p q : Payload}
    (h : agreeOn paymentUpdateFields p q) :
    paymentValidateUpdate p = paymentValidateUpdate q := by
  have h1 := h "sender" (by decide)
  have h2 := h "receiver" (by decide)
  have h3 := h "amount" (by decide)
  have h4 := h "currency" (by decide)
  have h5 := h "status" (by decide)
  have h6 := h "method" (by decide)
  have h7 := h "birth_date" (by decide)
  have hfs : fieldsSetOf paymentUpdateFields p = fieldsSetOf paymentUpdateFields q :=
    fieldsSetOf_congr h
  simp only [paymentValidateUpdate, paymentUpdateErrs, h1, h2, h3, h4, h5, h6, h7, hfs]

theorem paymentValidateRead_congr (fresh tc tu : Nat) {p q : Payload}
    (h : agreeOn paymentReadFields p q) :
    paymentValidateRead fresh tc tu p = paymentValidateRead fresh tc tu q := by
  have h1 := h "id" (by decide)
  have h2 := h "sender" (by decide)
  have h3 := h "receiver" (by decide)
  have h4 := h "amount" (by decide)
  have h5 := h "currency" (by decide)
  have h6 := h "status" (by decide)
  have h7 := h "method" (by decide)
  have h8 := h "birth_date" (by decide)
  have h9 := h "created_at" (by decide)
  have h10 := h "updated_at" (by decide)
  simp only [paymentValidateRead, paymentReadErrs, h1, h2, h3, h4, h5, h6, h7,
    h8, h9, h10]

theorem orderApplyUpdate_ok {r : OrderRead} {u : OrderUpdate} {t : Nat}
    {r2 : OrderRead} (h : orderApplyUpdate r u t = Except.ok r2) :
    r2 = ⟨r.id,
      if u.fieldsSet.contains "customer" then u.customer else r.customer,
      if u.fieldsSet.contains "item" then u.item.getD r.item else r.item,
      if u.fieldsSet.contains "quantity" then u.quantity.getD r.quantity else r.quantity,
      if u.fieldsSet.contains "price_per_item" then u.price_per_item.getD r.price_per_item else r.price_per_item,
      if u.fieldsSet.contains "order_date" then u.order_date.getD r.order_date else r.order_date,
      r.created_at,
      t⟩ := by
  by_cases hc : orderMergeErrs u = []
  · rw [orderApplyUpdate, if_pos hc] at h
    exact (Except.ok.inj h).symm
  · rw [orderApplyUpdate, if_neg hc] at h
    simp at h

theorem paymentApplyUpdate_ok {r : PaymentRead} {u : PaymentUpdate} {t : Nat}
    {r2 : PaymentRead} (h : paymentApplyUpdate r u t = Except.ok r2) :
    r2 = ⟨r.id,
      if u.fieldsSet.contains "sender" then u.sender else r.sender,
      if u.fieldsSet.contains "receiver" then u.receiver else r.receiver,
      if u.fieldsSet.contains "amount" then u.amount.getD r.amount else r.amount,
      if u.fieldsSet.contains "currency" then u.currency.getD r.currency else r.currency,
      if u.fieldsSet.contains "status" then u.status.getD r.status else r.status,
      if u.fieldsSet.contains "method" then u.method.getD r.method else r.method,
      if u.fieldsSet.contains "birth_date" then u.birth_date else r.birth_date,
      r.created_at,
      t⟩ := by
  by_cases hc : paymentMergeErrs u = []
  · rw [paymentApplyUpdate, if_pos hc] at h
    exact (Except.ok.inj h).symm
  · rw [paymentApplyUpdate, if_neg hc] at h
    simp at h

theorem chainLe_weaken {a b : Nat} {l : List Nat} (hab : a ≤ b)
    (h : List.Chain (· ≤ ·) b l) : List.Chain (· ≤ ·) a l := by
  cases l with
  | nil => exact List.Chain.nil
  | cons c l2 =>
      rw [List.chain_cons] at h ⊢
      exact ⟨le_trans hab h.1, h.2⟩

theorem orderApplyUpdates_inv (steps : List (OrderUpdate × Nat)) :
    ∀ r : OrderRead, r.created_at ≤ r.updated_at →
      List.Chain (· ≤ ·) r.updated_at (steps.map Prod.snd) →
      (orderApplyUpdates r steps).created_at ≤ (orderApplyUpdates r steps).updated_at := by
  induction steps with
  | nil => intro r h1 _; exact h1
  | cons st rest ih =>
      obtain ⟨u, t⟩ := st
      intro r h1 h2
      rw [List.map_cons, List.chain_cons] at h2
      cases hm : orderApplyUpdate r u t with
      | ok r2 =>
          have hr2 := orderApplyUpdate_ok hm
          have hcr : r2.created_at = r.created_at := by rw [hr2]
          have hup : r2.updated_at = t := by rw [hr2]
          simp only [orderApplyUpdates, hm]
          exact ih r2 (by rw [hcr, hup]; exact le_trans h1 h2.1) (by rw [hup]; exact h2.2)
      | error e =>
          simp only [orderApplyUpdates, hm]
          exact ih r h1 (chainLe_weaken h2.1 h2.2)

theorem paymentApplyUpdates_inv (steps : List (PaymentUpdate × Nat)) :
    ∀ r : PaymentRead, r.created_at ≤ r.updated_at →
      List.Chain (· ≤ ·) r.updated_at (steps.map Prod.snd) →
      (paymentApplyUpdates r steps).created_at ≤ (paymentApplyUpdates r steps).updated_at := by
  induction steps with
  | nil => intro r h1 _; exact h1
  | cons st rest ih =>
      obtain ⟨u, t⟩ := st
      intro r h1 h2
      rw [List.map_cons, List.chain_cons] at h2
      cases hm : paymentApplyUpdate r u t with
      | ok r2 =>
          have hr2 := paymentApplyUpdate_ok hm
          have hcr : r2.created_at = r.created_at := by rw [hr2]
          have hup : r2.updated_at = t := by rw [hr2]
          simp only [paymentApplyUpdates, hm]
          exact ih r2 (by rw [hcr, hup]; exact le_trans h1 h2.1) (by rw [hup]; exact h2.2)
      | error e =>
          simp only [paymentApplyUpdates, hm]
          exact ih r h1 (chainLe_weaken h2.1 h2.2)

/-- C1 counterexample: a Create payload that supplies id 7 validates
successfully and the resulting canonical record carries id 7, the supplied
value, not the fresh server identifier 2 -- so a client-supplied id is not
ignored or overwritten. -/
theorem claim_C1_cex :
    Except.map (fun o => o.id) (orderValidateCreate 2 payOrderWithId) =
      Except.ok 7 ∧ (7 : Nat) ≠ 2 := by
  exact ⟨rfl, by decide⟩

/-- C1 (amended): validate_create assigns the fresh server-generated
identifier only when the payload omits id; when the payload supplies an id
value, that value is validated and becomes the record id. This holds for
both Order and Payment. -/
theorem claim_C1 :
    (∀ (fresh : Nat) (p : Payload) (o : Order),
      List.lookup "id" p = none → orderValidateCreate fresh p = Except.ok o →
      o.id = fresh) ∧
    (∀ (fresh u : Nat) (p : Payload) (o : Order),
      List.lookup "id" p = some (Value.vuuid u) →
      orderValidateCreate fresh p = Except.ok o → o.id = u) ∧
    (∀ (fresh : Nat) (p : Payload) (o : Payment),
      List.lookup "id" p = none → paymentValidateCreate fresh p = Except.ok o →
      o.id = fresh) ∧
    (∀ (fresh u : Nat) (p : Payload) (o : Payment),
      List.lookup "id" p = some (Value.vuuid u) →
      paymentValidateCreate fresh p = Except.ok o → o.id = u) := by
  refine ⟨?_, ?_, ?_, ?_⟩
  · intro fresh p o hl h
    simp only [orderValidateCreate] at h
    rw [orderValidateBase_ok h]
    simp [hl, parseDefUuid, getOk]
  · intro fresh u p o hl h
    simp only [orderValidateCreate] at h
    rw [orderValidateBase_ok h]
    simp [hl, parseDefUuid, getOk]
  · intro fresh p o hl h
    simp only [paymentValidateCreate] at h
    rw [paymentValidateBase_ok h]
    simp [hl, parseDefUuid, getOk]
  · intro fresh u p o hl h
    simp only [paymentValidateCreate] at h
    rw [paymentValidateBase_ok h]
    simp [hl, parseDefUuid, getOk]

/-- C1 witness: the amended claim applied to concrete payloads of both
families, with and without a client-supplied id. -/
theorem claim_C1_wit :
    Except.map (fun o => o.id) (orderValidateCreate 5 payOrderFull) =
        Except.ok 5 ∧
      Except.map (fun o => o.id) (orderValidateCreate 2 payOrderWithId) =
        Except.ok 7 ∧
      Except.map (fun o => o.id) (paymentValidateCreate 5 payPayFull) =
        Except.ok 5 ∧
      Except.map (fun o => o.id) (paymentValidateCreate 2 payPayWithId) =
        Except.ok 9 := by
  have hA : orderValidateCreate 5 payOrderFull =
      Except.ok ⟨5, some adaP, "Laptop", 2, 999, 738⟩ := rfl
  have hB : orderValidateCreate 2 payOrderWithId =
      Except.ok ⟨7, some adaP, "Laptop", 2, 999, 738⟩ := rfl
  have hC : paymentValidateCreate 5 payPayFull =
      Except.ok ⟨5, some adaP, some babbageP, 150, "USD", "completed",
        "credit card", none⟩ := rfl
  have hD : paymentValidateCreate 2 payPayWithId =
      Except.ok ⟨9, some adaP, some babbageP, 150, "USD", "completed",
        "credit card", none⟩ := rfl
  have h1 := claim_C1.1 5 payOrderFull _ rfl hA
  have h2 := claim_C1.2.1 2 7 payOrderWithId _ rfl hB
  have h3 := claim_C1.2.2.1 5 payPayFull _ rfl hC
  have h4 := claim_C1.2.2.2 2 9 payPayWithId _ rfl hD
  refine ⟨?_, ?_, ?_, ?_⟩
  · rw [hA]; simp [Except.map, h1]
  · rw [hB]; simp [Except.map, h2]
  · rw [hC]; simp [Except.map, h3]
  · rw [hD]; simp [Except.map, h4]

/-- C2 counterexample: an Update payload carrying the key id (and one
carrying created_at) validates successfully -- no ImmutableFieldError (or any
failure) occurs; the keys are silently ignored. -/
theorem claim_C2_cex :
    orderValidateUpdate [("id", Value.vuuid 5)] =
        Except.ok ⟨none, none, none, none, none, []⟩ ∧
      paymentValidateUpdate [("created_at", Value.vdatetime 5)] =
        Except.ok ⟨none, none, none, none, none, none, none, []⟩ := by
  exact ⟨rfl, rfl⟩

/-- C2 (amended): supplying id or created_at in an Update payload never
fails: the keys are not Update model fields, so they are silently ignored --
the validation result is exactly that of the payload without them -- and a
merge never alters the stored id or created_at. -/
theorem claim_C2 :
    (∀ (p : Payload) (v : Value),
      orderValidateUpdate (("id", v) :: p) = orderValidateUpdate p) ∧
    (∀ (p : Payload) (v : Value),
      orderValidateUpdate (("created_at", v) :: p) = orderValidateUpdate p) ∧
    (∀ (p : Payload) (v : Value),
      paymentValidateUpdate (("id", v) :: p) = paymentValidateUpdate p) ∧
    (∀ (p : Payload) (v : Value),
      paymentValidateUpdate (("created_at", v) :: p) = paymentValidateUpdate p) ∧
    (∀ (r : OrderRead) (u : OrderUpdate) (t : Nat) (r2 : OrderRead),
      orderApplyUpdate r u t = Except.ok r2 →
      r2.id = r.id ∧ r2.created_at = r.created_at) ∧
    (∀ (r : PaymentRead) (u : PaymentUpdate) (t : Nat) (r2 : PaymentRead),
      paymentApplyUpdate r u t = Except.ok r2 →
      r2.id = r.id ∧ r2.created_at = r.created_at) := by
  refine ⟨?_, ?_, ?_, ?_, ?_, ?_⟩
  · intro p v
    apply orderValidateUpdate_congr
    intro f hf
    fin_cases hf <;> rfl
  · intro p v
    apply orderValidateUpdate_congr
    intro f hf
    fin_cases hf <;> rfl
  · intro p v
    apply paymentValidateUpdate_congr
    intro f hf
    fin_cases hf <;> rfl
  · intro p v
    apply paymentValidateUpdate_congr
    intro f hf
    fin_cases hf <;> rfl
  · intro r u t r2 h
    rw [orderApplyUpdate_ok h]
    exact ⟨rfl, rfl⟩
  · intro r u t r2 h
    rw [paymentApplyUpdate_ok h]
    exact ⟨rfl, rfl⟩

/-- C2 witness: the amended claim applied to concrete inputs -- an id key
prepended to a concrete Update payload changes nothing, and a concrete
successful merge preserves id and created_at. -/
theorem claim_C2_wit :
    orderValidateUpdate (("id", Value.vuuid 3) :: [("quantity", Value.vint 5)]) =
        orderValidateUpdate [("quantity", Value.vint 5)] ∧
      Except.map (fun r2 => r2.id) (orderApplyUpdate rOrder1 uOrderQty7 30) =
        Except.ok rOrder1.id ∧
      Except.map (fun r2 => r2.created_at) (orderApplyUpdate rOrder1 uOrderQty7 30) =
        Except.ok rOrder1.created_at := by
  have hA : orderApplyUpdate rOrder1 uOrderQty7 30 =
      Except.ok ⟨1, none, "Laptop", 7, 999, 738, 10, 30⟩ := rfl
  have h2 := claim_C2.2.2.2.2.1 rOrder1 uOrderQty7 30 _ hA
  refine ⟨claim_C2.1 [("quantity", Value.vint 5)] (Value.vuuid 3), ?_, ?_⟩
  · rw [hA]
    simpa [Except.map] using h2.1
  · rw [hA]
    simpa [Except.map] using h2.2

theorem orderValidateUpdate_errsNil {p : Payload} {u : OrderUpdate}
    (h : orderValidateUpdate p = Except.ok u) : orderUpdateErrs p = [] := by
  by_cases hc : orderUpdateErrs p = []
  · exact hc
  · rw [orderValidateUpdate, if_neg hc] at h
    simp at h

theorem orderValidateUpdate_ok {p : Payload} {u : OrderUpdate}
    (h : orderValidateUpdate p = Except.ok u) :
    u = ⟨getOk none (parseOptPerson "customer" (List.lookup "customer" p)),
      getOk none (parseOptStr "item" (List.lookup "item" p)),
      getOk none (parseOptInt "quantity" (List.lookup "quantity" p)),
      getOk none (parseOptNum "price_per_item" (List.lookup "price_per_item" p)),
      getOk none (parseOptDate "order_date" (List.lookup "order_date" p)),
      fieldsSetOf orderUpdateFields p⟩ := by
  by_cases hc : orderUpdateErrs p = []
  · rw [orderValidateUpdate, if_pos hc] at h
    exact (Except.ok.inj h).symm
  · rw [orderValidateUpdate, if_neg hc] at h
    simp at h

theorem paymentValidateUpdate_errsNil {p : Payload} {u : PaymentUpdate}
    (h : paymentValidateUpdate p = Except.ok u) : paymentUpdateErrs p = [] := by
  by_cases hc : paymentUpdateErrs p = []
  · exact hc
  · rw [paymentValidateUpdate, if_neg hc] at h
    simp at h

theorem paymentValidateUpdate_ok {p : Payload} {u : PaymentUpdate}
    (h : paymentValidateUpdate p = Except.ok u) :
    u = ⟨getOk none (parseOptPerson "sender" (List.lookup "sender" p)),
      getOk none (parseOptPerson "receiver" (List.lookup "receiver" p)),
      getOk none (parseOptNum "amount" (List.lookup "amount" p)),
      getOk none (parseOptStr "currency" (List.lookup "currency" p)),
      getOk none (parseOptStr "status" (List.lookup "status" p)),
      getOk none (parseOptStr "method" (List.lookup "method" p)),
      getOk none (parseOptDate "birth_date" (List.lookup "birth_date" p)),
      fieldsSetOf paymentUpdateFields p⟩ := by
  by_cases hc : paymentUpdateErrs p = []
  · rw [paymentValidateUpdate, if_pos hc] at h
    exact (Except.ok.inj h).symm
  · rw [paymentValidateUpdate, if_neg hc] at h
    simp at h

theorem mem_fieldsSetOf {f : String} {fields : List String} {p : Payload} :
    f ∈ fieldsSetOf fields p ↔
      f ∈ fields ∧ (List.lookup f p).isSome = true := by
  simp [fieldsSetOf, List.mem_filter]

theorem lookupAppendLeftNone {f : String} :
    ∀ p extra : Payload, List.lookup f p = none →
      List.lookup f (p ++ extra) = List.lookup f extra := by
  intro p extra
  induction p with
  | nil => intro _; rfl
  | cons kv rest ih =>
      intro h
      obtain ⟨k, v⟩ := kv
      rw [List.lookup_cons] at h
      rw [List.cons_append, List.lookup_cons]
      cases hfk : (f == k) with
      | false =>
          simp only [hfk] at h ⊢
          exact ih h
      | true =>
          simp only [hfk] at h
          exact Option.noConfusion h

theorem lookupOfKeysNe {f : String} :
    ∀ l : Payload, (∀ kv ∈ l, kv.1 ≠ f) → List.lookup f l = none := by
  intro l
  induction l with
  | nil => intro _; rfl
  | cons kv rest ih =>
      intro h
      obtain ⟨k, v⟩ := kv
      have hk : k ≠ f := h (k, v) (by simp)
      have hfk : (f == k) = false := beq_eq_false_iff_ne.mpr (Ne.symm hk)
      rw [List.lookup_cons]
      simp only [hfk]
      exact ih (fun kv2 hkv2 => h kv2 (by simp [hkv2]))

theorem lookupAppendOfNone {f : String} :
    ∀ p extra : Payload, List.lookup f extra = none →
      List.lookup f (p ++ extra) = List.lookup f p := by
  intro p extra h
  induction p with
  | nil => simpa using h
  | cons kv rest ih =>
      obtain ⟨k, v⟩ := kv
      rw [List.cons_append, List.lookup_cons, List.lookup_cons]
      cases hfk : (f == k) <;> simp [hfk, ih]

theorem lookupAppendSingleNe {g k : String} {v : Value} (p : Payload)
    (h : (g == k) = false) :
    List.lookup g (p ++ [(k, v)]) = List.lookup g p :=
  lookupAppendOfNone p [(k, v)] (by rw [List.lookup_cons]; simp [h])

theorem lookupAppendSingleSelf {f : String} {v : Value} (p : Payload)
    (h : List.lookup f p = none) :
    List.lookup f (p ++ [(f, v)]) = some v := by
  rw [lookupAppendLeftNone p _ h, List.lookup_cons]
  simp

theorem errsOfOptPersonNull (name : String) :
    errsOf (parseOptPerson name (some Value.vnull)) = [] := rfl

theorem errsOfOptStrNull (name : String) :
    errsOf (parseOptStr name (some Value.vnull)) = [] := rfl

theorem errsOfOptIntNull (name : String) :
    errsOf (parseOptInt name (some Value.vnull)) = [] := rfl

theorem errsOfOptNumNull (name : String) :
    errsOf (parseOptNum name (some Value.vnull)) = [] := rfl

theorem errsOfOptDateNull (name : String) :
    errsOf (parseOptDate name (some Value.vnull)) = [] := rfl

theorem orderUpdateErrsNullExt (p : Payload) (f : String)
    (hf : f ∈ orderUpdateFields) (hl : List.lookup f p = none)
    (he : orderUpdateErrs p = []) :
    orderUpdateErrs (p ++ [(f, Value.vnull)]) = [] := by
  simp only [orderUpdateErrs, List.append_eq_nil, and_assoc] at he
  obtain ⟨he1, he2, he3, he4, he5⟩ := he
  fin_cases hf <;>
    simp [orderUpdateErrs, lookupAppendSingleNe, lookupAppendSingleSelf, hl,
      he1, he2, he3, he4, he5, errsOfOptPersonNull, errsOfOptStrNull,
      errsOfOptIntNull, errsOfOptNumNull, errsOfOptDateNull]

theorem paymentUpdateErrsNullExt (p : Payload) (f : String)
    (hf : f ∈ paymentUpdateFields) (hl : List.lookup f p = none)
    (he : paymentUpdateErrs p = []) :
    paymentUpdateErrs (p ++ [(f, Value.vnull)]) = [] := by
  simp only [paymentUpdateErrs, List.append_eq_nil, and_assoc] at he
  obtain ⟨he1, he2, he3, he4, he5, he6, he7⟩ := he
  fin_cases hf <;>
    simp [paymentUpdateErrs, lookupAppendSingleNe, lookupAppendSingleSelf, hl,
      he1, he2, he3, he4, he5, he6, he7, errsOfOptPersonNull, errsOfOptStrNull,
      errsOfOptIntNull, errsOfOptNumNull, errsOfOptDateNull]

theorem orderUpdateDistinct (p q : Payload) (f : String)
    (u1 u2 : OrderUpdate) (hf : f ∈ orderUpdateFields)
    (hv1 : orderValidateUpdate p = Except.ok u1)
    (hv2 : orderValidateUpdate q = Except.ok u2)
    (hlp : List.lookup f p = none)
    (hlq : (List.lookup f q).isSome = true) :
    f ∉ u1.fieldsSet ∧ f ∈ u2.fieldsSet ∧ u1 ≠ u2 := by
  have h1 := orderValidateUpdate_ok hv1
  have h2 := orderValidateUpdate_ok hv2
  have ha : f ∉ u1.fieldsSet := by
    simp [h1, mem_fieldsSetOf, hlp]
  have hb : f ∈ u2.fieldsSet := by
    simp [h2, mem_fieldsSetOf, hf, hlq]
  refine ⟨ha, hb, ?_⟩
  intro hEq
  rw [hEq] at ha
  exact ha hb

theorem paymentUpdateDistinct (p q : Payload) (f : String)
    (u1 u2 : PaymentUpdate) (hf : f ∈ paymentUpdateFields)
    (hv1 : paymentValidateUpdate p = Except.ok u1)
    (hv2 : paymentValidateUpdate q = Except.ok u2)
    (hlp : List.lookup f p = none)
    (hlq : (List.lookup f q).isSome = true) :
    f ∉ u1.fieldsSet ∧ f ∈ u2.fieldsSet ∧ u1 ≠ u2 := by
  have h1 := paymentValidateUpdate_ok hv1
  have h2 := paymentValidateUpdate_ok hv2
  have ha : f ∉ u1.fieldsSet := by
    simp [h1, mem_fieldsSetOf, hlp]
  have hb : f ∈ u2.fieldsSet := by
    simp [h2, mem_fieldsSetOf, hf, hlq]
  refine ⟨ha, hb, ?_⟩
  intro hEq
  rw [hEq] at ha
  exact ha hb

/-- C3: validate_update distinguishes, for every Update payload and every
Update model field of either family, a field absent from the input from one
present (in particular present with an explicit null): the validated
instances record presence in their model fields set and are therefore
distinct PartialRecords; extending any valid payload with an explicit null
for an absent field always validates, to an instance distinct from the
original; and in the merge an explicit null on a nullable field is a
deliberate clear while omission leaves the stored value untouched. -/
theorem claim_C3 :
    (∀ (p q : Payload) (f : String) (u1 u2 : OrderUpdate),
      f ∈ orderUpdateFields →
      orderValidateUpdate p = Except.ok u1 →
      orderValidateUpdate q = Except.ok u2 →
      List.lookup f p = none → (List.lookup f q).isSome = true →
      f ∉ u1.fieldsSet ∧ f ∈ u2.fieldsSet ∧ u1 ≠ u2) ∧
    (∀ (p : Payload) (f : String) (u1 : OrderUpdate),
      f ∈ orderUpdateFields → List.lookup f p = none →
      orderValidateUpdate p = Except.ok u1 →
      orderUpdateErrs (p ++ [(f, Value.vnull)]) = [] ∧
      ∀ u2, orderValidateUpdate (p ++ [(f, Value.vnull)]) = Except.ok u2 →
        f ∈ u2.fieldsSet ∧ u1 ≠ u2) ∧
    (∀ (p q : Payload) (f : String) (u1 u2 : PaymentUpdate),
      f ∈ paymentUpdateFields →
      paymentValidateUpdate p = Except.ok u1 →
      paymentValidateUpdate q = Except.ok u2 →
      List.lookup f p = none → (List.lookup f q).isSome = true →
      f ∉ u1.fieldsSet ∧ f ∈ u2.fieldsSet ∧ u1 ≠ u2) ∧
    (∀ (p : Payload) (f : String) (u1 : PaymentUpdate),
      f ∈ paymentUpdateFields → List.lookup f p = none →
      paymentValidateUpdate p = Except.ok u1 →
      paymentUpdateErrs (p ++ [(f, Value.vnull)]) = [] ∧
      ∀ u2, paymentValidateUpdate (p ++ [(f, Value.vnull)]) = Except.ok u2 →
        f ∈ u2.fieldsSet ∧ u1 ≠ u2) ∧
    (∀ (r : OrderRead) (t : Nat),
        orderApplyUpdate r ⟨none, none, none, none, none, ["customer"]⟩ t =
          Except.ok ⟨r.id, none, r.item, r.quantity, r.price_per_item,
            r.order_date, r.created_at, t⟩) ∧
      (∀ (r : OrderRead) (t : Nat),
        orderApplyUpdate r ⟨none, none, none, none, none, []⟩ t =
          Except.ok ⟨r.id, r.customer, r.item, r.quantity, r.price_per_item,
            r.order_date, r.created_at, t⟩) ∧
      (∀ (r : PaymentRead) (t : Nat),
        paymentApplyUpdate r ⟨none, none, none, none, none, none, none,
            ["birth_date"]⟩ t =
          Except.ok ⟨r.id, r.sender, r.receiver, r.amount, r.currency,
            r.status, r.method, none, r.created_at, t⟩) ∧
      (∀ (r : PaymentRead) (t : Nat),
        paymentApplyUpdate r ⟨none, none, none, none, none, none, none, []⟩ t =
          Except.ok ⟨r.id, r.sender, r.receiver, r.amount, r.currency,
            r.status, r.method, r.birth_date, r.created_at, t⟩) := by
  refine ⟨orderUpdateDistinct, ?_, paymentUpdateDistinct, ?_,
    fun r t => rfl, fun r t => rfl, fun r t => rfl, fun r t => rfl⟩
  · intro p f u1 hf hl hv
    refine ⟨orderUpdateErrsNullExt p f hf hl
      (orderValidateUpdate_errsNil hv), ?_⟩
    intro u2 hv2
    have hlq : (List.lookup f (p ++ [(f, Value.vnull)])).isSome = true := by
      rw [lookupAppendSingleSelf p hl]
      rfl
    obtain ⟨_, hb, hne⟩ :=
      orderUpdateDistinct p (p ++ [(f, Value.vnull)]) f u1 u2 hf hv hv2 hl hlq
    exact ⟨hb, hne⟩
  · intro p f u1 hf hl hv
    refine ⟨paymentUpdateErrsNullExt p f hf hl
      (paymentValidateUpdate_errsNil hv), ?_⟩
    intro u2 hv2
    have hlq : (List.lookup f (p ++ [(f, Value.vnull)])).isSome = true := by
      rw [lookupAppendSingleSelf p hl]
      rfl
    obtain ⟨_, hb, hne⟩ :=
      paymentUpdateDistinct p (p ++ [(f, Value.vnull)]) f u1 u2 hf hv hv2 hl hlq
    exact ⟨hb, hne⟩

/-- C3 witness: the general claim applied to concrete inputs of both
families -- the item field absent versus explicitly null on an Order Update
payload, and the status field absent versus explicitly null on a Payment
Update payload, plus the clear-versus-keep merge behaviour at instant 33. -/
theorem claim_C3_wit :
    "item" ∉ (⟨none, none, some 5, none, none,
        ["quantity"]⟩ : OrderUpdate).fieldsSet ∧
      "item" ∈ (⟨none, none, some 5, none, none,
        ["item", "quantity"]⟩ : OrderUpdate).fieldsSet ∧
      (⟨none, none, some 5, none, none, ["quantity"]⟩ : OrderUpdate) ≠
        ⟨none, none, some 5, none, none, ["item", "quantity"]⟩ ∧
      orderUpdateErrs ([("quantity", Value.vint 5)] ++
        [("item", Value.vnull)]) = [] ∧
      "status" ∉ (⟨none, none, some 5, none, none, none, none,
        ["amount"]⟩ : PaymentUpdate).fieldsSet ∧
      "status" ∈ (⟨none, none, some 5, none, none, none, none,
        ["amount", "status"]⟩ : PaymentUpdate).fieldsSet ∧
      (⟨none, none, some 5, none, none, none, none,
          ["amount"]⟩ : PaymentUpdate) ≠
        ⟨none, none, some 5, none, none, none, none, ["amount", "status"]⟩ ∧
      paymentUpdateErrs ([("amount", Value.vint 5)] ++
        [("status", Value.vnull)]) = [] ∧
      orderApplyUpdate rOrder1 ⟨none, none, none, none, none, ["customer"]⟩ 33 =
        Except.ok ⟨1, none, "Laptop", 5, 999, 738, 10, 33⟩ ∧
      paymentApplyUpdate rPay1
          ⟨none, none, none, none, none, none, none, ["birth_date"]⟩ 33 =
        Except.ok ⟨1, some adaP, some babbageP, 150, "USD", "completed",
          "credit card", none, 10, 33⟩ := by
  have hv1 : orderValidateUpdate [("quantity", Value.vint 5)] =
      Except.ok ⟨none, none, some 5, none, none, ["quantity"]⟩ := rfl
  have hv2 : orderValidateUpdate ([("quantity", Value.vint 5)] ++
      [("item", Value.vnull)]) =
      Except.ok ⟨none, none, some 5, none, none, ["item", "quantity"]⟩ := rfl
  have hw1 : paymentValidateUpdate [("amount", Value.vint 5)] =
      Except.ok ⟨none, none, some 5, none, none, none, none, ["amount"]⟩ := rfl
  have hw2 : paymentValidateUpdate ([("amount", Value.vint 5)] ++
      [("status", Value.vnull)]) =
      Except.ok ⟨none, none, some 5, none, none, none, none,
        ["amount", "status"]⟩ := rfl
  have hd := claim_C3.1 [("quantity", Value.vint 5)]
    ([("quantity", Value.vint 5)] ++ [("item", Value.vnull)]) "item" _ _
    (by decide) hv1 hv2 rfl rfl
  have hn := (claim_C3.2.1 [("quantity", Value.vint 5)] "item" _
    (by decide) rfl hv1).1
  have hd2 := claim_C3.2.2.1 [("amount", Value.vint 5)]
    ([("amount", Value.vint 5)] ++ [("status", Value.vnull)]) "status" _ _
    (by decide) hw1 hw2 rfl rfl
  have hn2 := (claim_C3.2.2.2.1 [("amount", Value.vint 5)] "status" _
    (by decide) rfl hw1).1
  exact ⟨hd.1, hd.2.1, hd.2.2, hn, hd2.1, hd2.2.1, hd2.2.2, hn2,
    claim_C3.2.2.2.2.1 rOrder1 33, claim_C3.2.2.2.2.2.2.1 rPay1 33⟩

/-- C4 counterexample: in the Create-then-Read pipeline a client-supplied id
(7) survives into the Read representation instead of being ignored in favour
of the fresh server identifier (2). -/
theorem claim_C4_cex :
    Except.map (fun r => r.id) (orderCreateRead 2 50 payOrderWithId) =
      Except.ok 7 ∧ (7 : Nat) ≠ 2 := by
  exact ⟨rfl, by decide⟩

/-- C4 (amended): for every valid Create payload, validate_create followed by
project_read yields a Read representation whose supplied Base fields equal
the payload fields and whose created_at and updated_at are server-assigned
and equal to each other at creation; id is freshly server-assigned only when
the payload omits it -- a client-supplied id is used, not ignored. -/
theorem claim_C4 :
    (∀ (fresh t : Nat) (p : Payload) (r : OrderRead),
      orderCreateRead fresh t p = Except.ok r →
      r.created_at = t ∧ r.updated_at = t ∧
      (List.lookup "id" p = none → r.id = fresh) ∧
      (∀ s, List.lookup "item" p = some (Value.vstr s) → r.item = s) ∧
      (∀ n, List.lookup "quantity" p = some (Value.vint n) → r.quantity = n) ∧
      (∀ a, List.lookup "price_per_item" p = some (Value.vnum a) →
        r.price_per_item = a) ∧
      (∀ d, List.lookup "order_date" p = some (Value.vdate d) →
        r.order_date = d) ∧
      (List.lookup "customer" p = none → r.customer = none) ∧
      (∀ c, List.lookup "customer" p = some (Value.vperson c) →
        r.customer = some c)) ∧
    (∀ (fresh t : Nat) (p : Payload) (r : PaymentRead),
      paymentCreateRead fresh t p = Except.ok r →
      r.created_at = t ∧ r.updated_at = t ∧
      (List.lookup "id" p = none → r.id = fresh) ∧
      (∀ a, List.lookup "amount" p = some (Value.vnum a) → r.amount = a) ∧
      (∀ s, List.lookup "currency" p = some (Value.vstr s) → r.currency = s) ∧
      (∀ s, List.lookup "status" p = some (Value.vstr s) → r.status = s) ∧
      (∀ s, List.lookup "method" p = some (Value.vstr s) → r.method = s) ∧
      (List.lookup "birth_date" p = none → r.birth_date = none) ∧
      (∀ d, List.lookup "birth_date" p = some (Value.vdate d) →
        r.birth_date = some d) ∧
      (List.lookup "sender" p = none → r.sender = none) ∧
      (∀ c, List.lookup "sender" p = some (Value.vperson c) →
        r.sender = some c) ∧
      (List.lookup "receiver" p = none → r.receiver = none) ∧
      (∀ c, List.lookup "receiver" p = some (Value.vperson c) →
        r.receiver = some c)) := by
  constructor
  · intro fresh t p r h
    simp only [orderCreateRead] at h
    cases hv : orderValidateCreate fresh p with
    | error e =>
        rw [hv] at h
        simp [Except.map] at h
    | ok o =>
        rw [hv] at h
        simp only [Except.map] at h
        have ho := orderValidateBase_ok (show orderValidateBase fresh p = Except.ok o by
          simpa [orderValidateCreate] using hv)
        have hr := Except.ok.inj h
        subst hr
        refine ⟨rfl, rfl, ?_, ?_, ?_, ?_, ?_, ?_, ?_⟩
        · intro hl
          rw [ho]
          simp [orderProjectRead, hl, parseDefUuid, getOk]
        · intro s hl
          rw [ho]
          simp [orderProjectRead, hl, parseReqStr, getOk]
        · intro n hl
          rw [ho]
          simp [orderProjectRead, hl, parseReqInt, getOk]
        · intro a hl
          rw [ho]
          simp [orderProjectRead, hl, parseReqNum, getOk]
        · intro d hl
          rw [ho]
          simp [orderProjectRead, hl, parseReqDate, getOk]
        · intro hl
          rw [ho]
          simp [orderProjectRead, hl, parseNullDefPerson, getOk]
        · intro c hl
          rw [ho]
          simp [orderProjectRead, hl, parseNullDefPerson, getOk]
  · intro fresh t p r h
    simp only [paymentCreateRead] at h
    cases hv : paymentValidateCreate fresh p with
    | error e =>
        rw [hv] at h
        simp [Except.map] at h
    | ok o =>
        rw [hv] at h
        simp only [Except.map] at h
        have ho := paymentValidateBase_ok (show paymentValidateBase fresh p = Except.ok o by
          simpa [paymentValidateCreate] using hv)
        have hr := Except.ok.inj h
        subst hr
        refine ⟨rfl, rfl, ?_, ?_, ?_, ?_, ?_, ?_, ?_, ?_, ?_, ?_, ?_⟩
        · intro hl
          rw [ho]
          simp [paymentProjectRead, hl, parseDefUuid, getOk]
        · intro a hl
          rw [ho]
          simp [paymentProjectRead, hl, parseReqNum, getOk]
        · intro s hl
          rw [ho]
          simp [paymentProjectRead, hl, parseReqStr, getOk]
        · intro s hl
          rw [ho]
          simp [paymentProjectRead, hl, parseReqStr, getOk]
        · intro s hl
          rw [ho]
          simp [paymentProjectRead, hl, parseReqStr, getOk]
        · intro hl
          rw [ho]
          simp [paymentProjectRead, hl, parseOptDate, getOk]
        · intro d hl
          rw [ho]
          simp [paymentProjectRead, hl, parseOptDate, getOk]
        · intro hl
          rw [ho]
          simp [paymentProjectRead, hl, parseNullDefPerson, getOk]
        · intro c hl
          rw [ho]
          simp [paymentProjectRead, hl, parseNullDefPerson, getOk]
        · intro hl
          rw [ho]
          simp [paymentProjectRead, hl, parseNullDefPerson, getOk]
        · intro c hl
          rw [ho]
          simp [paymentProjectRead, hl, parseNullDefPerson, getOk]

/-- C4 witness: the amended claim applied to a concrete valid Order create
payload and a concrete valid Payment create payload at commit instant 50. -/
theorem claim_C4_wit :
    Except.map (fun r => r.created_at) (orderCreateRead 5 50 payOrderFull) =
        Except.ok 50 ∧
      Except.map (fun r => r.updated_at) (orderCreateRead 5 50 payOrderFull) =
        Except.ok 50 ∧
      Except.map (fun r => r.id) (orderCreateRead 5 50 payOrderFull) =
        Except.ok 5 ∧
      Except.map (fun r => r.item) (orderCreateRead 5 50 payOrderFull) =
        Except.ok "Laptop" ∧
      Except.map (fun r => r.created_at) (paymentCreateRead 5 50 payPayFull) =
        Except.ok 50 ∧
      Except.map (fun r => r.currency) (paymentCreateRead 5 50 payPayFull) =
        Except.ok "USD" := by
  have hA : orderCreateRead 5 50 payOrderFull =
      Except.ok ⟨5, some adaP, "Laptop", 2, 999, 738, 50, 50⟩ := rfl
  have hB : paymentCreateRead 5 50 payPayFull =
      Except.ok ⟨5, some adaP, some babbageP, 150, "USD", "completed",
        "credit card", none, 50, 50⟩ := rfl
  have h1 := claim_C4.1 5 50 payOrderFull _ hA
  have h2 := claim_C4.2 5 50 payPayFull _ hB
  refine ⟨?_, ?_, ?_, ?_, ?_, ?_⟩
  · rw [hA]
    simpa [Except.map] using h1.1
  · rw [hA]
    simpa [Except.map] using h1.2.1
  · rw [hA]
    simpa [Except.map] using h1.2.2.1 rfl
  · rw [hA]
    simpa [Except.map] using h1.2.2.2.1 "Laptop" rfl
  · rw [hB]
    simpa [Except.map] using h2.1
  · rw [hB]
    simpa [Except.map] using h2.2.2.2.2.1 "USD" rfl

/-- C5 counterexample: an Update supplying only quantity with value 5 (a
proper non-empty subset of the optional fields), merged at instant 20 onto a
stored record whose quantity is already 5 and whose updated_at is already 20,
returns the stored record unchanged: the merged record does not differ on the
supplied field and updated_at is not strictly greater. -/
theorem claim_C5_cex :
    orderApplyUpdate rOrder1 uOrderQty5 20 = Except.ok rOrder1 ∧
      uOrderQty5.fieldsSet = ["quantity"] ∧
      rOrder1.quantity = 5 ∧ rOrder1.updated_at = 20 := by
  exact ⟨rfl, rfl, rfl, rfl⟩

/-- C5 (amended): merging a validated Update onto an existing record leaves
every unsupplied field byte-identical, sets each supplied field to its
supplied value (which may coincide with the prior value), never touches id or
created_at, and sets updated_at to the merge instant -- which is at least the
prior updated_at whenever the clock instant is, but need not be strictly
greater. -/
theorem claim_C5 :
    (∀ (r : OrderRead) (u : OrderUpdate) (t : Nat) (r2 : OrderRead),
      orderApplyUpdate r u t = Except.ok r2 →
      (u.fieldsSet.contains "customer" = false → r2.customer = r.customer) ∧
      (u.fieldsSet.contains "item" = false → r2.item = r.item) ∧
      (u.fieldsSet.contains "quantity" = false → r2.quantity = r.quantity) ∧
      (u.fieldsSet.contains "price_per_item" = false →
        r2.price_per_item = r.price_per_item) ∧
      (u.fieldsSet.contains "order_date" = false →
        r2.order_date = r.order_date) ∧
      (u.fieldsSet.contains "customer" = true → r2.customer = u.customer) ∧
      (∀ s, u.fieldsSet.contains "item" = true → u.item = some s →
        r2.item = s) ∧
      (∀ n, u.fieldsSet.contains "quantity" = true → u.quantity = some n →
        r2.quantity = n) ∧
      (∀ a, u.fieldsSet.contains "price_per_item" = true →
        u.price_per_item = some a → r2.price_per_item = a) ∧
      (∀ d, u.fieldsSet.contains "order_date" = true →
        u.order_date = some d → r2.order_date = d) ∧
      r2.id = r.id ∧ r2.created_at = r.created_at ∧ r2.updated_at = t ∧
      (r.updated_at ≤ t → r.updated_at ≤ r2.updated_at)) ∧
    (∀ (r : PaymentRead) (u : PaymentUpdate) (t : Nat) (r2 : PaymentRead),
      paymentApplyUpdate r u t = Except.ok r2 →
      (u.fieldsSet.contains "sender" = false → r2.sender = r.sender) ∧
      (u.fieldsSet.contains "receiver" = false → r2.receiver = r.receiver) ∧
      (u.fieldsSet.contains "amount" = false → r2.amount = r.amount) ∧
      (u.fieldsSet.contains "currency" = false → r2.currency = r.currency) ∧
      (u.fieldsSet.contains "status" = false → r2.status = r.status) ∧
      (u.fieldsSet.contains "method" = false → r2.method = r.method) ∧
      (u.fieldsSet.contains "birth_date" = false →
        r2.birth_date = r.birth_date) ∧
      (u.fieldsSet.contains "sender" = true → r2.sender = u.sender) ∧
      (u.fieldsSet.contains "receiver" = true → r2.receiver = u.receiver) ∧
      (∀ a, u.fieldsSet.contains "amount" = true → u.amount = some a →
        r2.amount = a) ∧
      (∀ s, u.fieldsSet.contains "currency" = true → u.currency = some s →
        r2.currency = s) ∧
      (∀ s, u.fieldsSet.contains "status" = true → u.status = some s →
        r2.status = s) ∧
      (∀ s, u.fieldsSet.contains "method" = true → u.method = some s →
        r2.method = s) ∧
      (u.fieldsSet.contains "birth_date" = true →
        r2.birth_date = u.birth_date) ∧
      r2.id = r.id ∧ r2.created_at = r.created_at ∧ r2.updated_at = t ∧
      (r.updated_at ≤ t → r.updated_at ≤ r2.updated_at)) := by
  constructor
  · intro r u t r2 h
    have hr2 := orderApplyUpdate_ok h
    refine ⟨?_, ?_, ?_, ?_, ?_, ?_, ?_, ?_, ?_, ?_, ?_, ?_, ?_, ?_⟩
    · intro hc
      replace hc : "customer" ∉ u.fieldsSet := by simpa using hc
      rw [hr2]; simp [hc]
    · intro hc
      replace hc : "item" ∉ u.fieldsSet := by simpa using hc
      rw [hr2]; simp [hc]
    · intro hc
      replace hc : "quantity" ∉ u.fieldsSet := by simpa using hc
      rw [hr2]; simp [hc]
    · intro hc
      replace hc : "price_per_item" ∉ u.fieldsSet := by simpa using hc
      rw [hr2]; simp [hc]
    · intro hc
      replace hc : "order_date" ∉ u.fieldsSet := by simpa using hc
      rw [hr2]; simp [hc]
    · intro hc
      replace hc : "customer" ∈ u.fieldsSet := by simpa using hc
      rw [hr2]; simp [hc]
    · intro s hc hv
      replace hc : "item" ∈ u.fieldsSet := by simpa using hc
      rw [hr2]; simp [hc, hv]
    · intro n hc hv
      replace hc : "quantity" ∈ u.fieldsSet := by simpa using hc
      rw [hr2]; simp [hc, hv]
    · intro a hc hv
      replace hc : "price_per_item" ∈ u.fieldsSet := by simpa using hc
      rw [hr2]; simp [hc, hv]
    · intro d hc hv
      replace hc : "order_date" ∈ u.fieldsSet := by simpa using hc
      rw [hr2]; simp [hc, hv]
    · rw [hr2]
    · rw [hr2]
    · rw [hr2]
    · intro hle; rw [hr2]; exact hle
  · intro r u t r2 h
    have hr2 := paymentApplyUpdate_ok h
    refine ⟨?_, ?_, ?_, ?_, ?_, ?_, ?_, ?_, ?_, ?_, ?_, ?_, ?_, ?_, ?_, ?_,
      ?_, ?_⟩
    · intro hc
      replace hc : "sender" ∉ u.fieldsSet := by simpa using hc
      rw [hr2]; simp [hc]
    · intro hc
      replace hc : "receiver" ∉ u.fieldsSet := by simpa using hc
      rw [hr2]; simp [hc]
    · intro hc
      replace hc : "amount" ∉ u.fieldsSet := by simpa using hc
      rw [hr2]; simp [hc]
    · intro hc
      replace hc : "currency" ∉ u.fieldsSet := by simpa using hc
      rw [hr2]; simp [hc]
    · intro hc
      replace hc : "status" ∉ u.fieldsSet := by simpa using hc
      rw [hr2]; simp [hc]
    · intro hc
      replace hc : "method" ∉ u.fieldsSet := by simpa using hc
      rw [hr2]; simp [hc]
    · intro hc
      replace hc : "birth_date" ∉ u.fieldsSet := by simpa using hc
      rw [hr2]; simp [hc]
    · intro hc
      replace hc : "sender" ∈ u.fieldsSet := by simpa using hc
      rw [hr2]; simp [hc]
    · intro hc
      replace hc : "receiver" ∈ u.fieldsSet := by simpa using hc
      rw [hr2]; simp [hc]
    · intro a hc hv
      replace hc : "amount" ∈ u.fieldsSet := by simpa using hc
      rw [hr2]; simp [hc, hv]
    · intro s hc hv
      replace hc : "currency" ∈ u.fieldsSet := by simpa using hc
      rw [hr2]; simp [hc, hv]
    · intro s hc hv
      replace hc : "status" ∈ u.fieldsSet := by simpa using hc
      rw [hr2]; simp [hc, hv]
    · intro s hc hv
      replace hc : "method" ∈ u.fieldsSet := by simpa using hc
      rw [hr2]; simp [hc, hv]
    · intro hc
      replace hc : "birth_date" ∈ u.fieldsSet := by simpa using hc
      rw [hr2]; simp [hc]
    · rw [hr2]
    · rw [hr2]
    · rw [hr2]
    · intro hle; rw [hr2]; exact hle

/-- C5 witness: the amended claim applied to a concrete merge -- quantity 7
onto the stored Order record at instant 30 (and amount 200 onto the stored
Payment record): the supplied field changes, the others are untouched,
updated_at becomes the merge instant. -/
theorem claim_C5_wit :
    Except.map (fun r2 => r2.quantity) (orderApplyUpdate rOrder1 uOrderQty7 30) =
        Except.ok 7 ∧
      Except.map (fun r2 => r2.item) (orderApplyUpdate rOrder1 uOrderQty7 30) =
        Except.ok rOrder1.item ∧
      Except.map (fun r2 => r2.updated_at) (orderApplyUpdate rOrder1 uOrderQty7 30) =
        Except.ok 30 ∧
      Except.map (fun r2 => r2.amount) (paymentApplyUpdate rPay1 uPayAmt 30) =
        Except.ok 200 ∧
      Except.map (fun r2 => r2.currency) (paymentApplyUpdate rPay1 uPayAmt 30) =
        Except.ok rPay1.currency := by
  have hA : orderApplyUpdate rOrder1 uOrderQty7 30 =
      Except.ok ⟨1, none, "Laptop", 7, 999, 738, 10, 30⟩ := rfl
  have hB : paymentApplyUpdate rPay1 uPayAmt 30 =
      Except.ok ⟨1, some adaP, some babbageP, 200, "USD", "completed",
        "credit card", none, 10, 30⟩ := rfl
  have h1 := claim_C5.1 rOrder1 uOrderQty7 30 _ hA
  have h2 := claim_C5.2 rPay1 uPayAmt 30 _ hB
  refine ⟨?_, ?_, ?_, ?_, ?_⟩
  · rw [hA]
    simpa [Except.map] using h1.2.2.2.2.2.2.2.1 7 rfl rfl
  · rw [hA]
    simpa [Except.map] using h1.2.1 rfl
  · rw [hA]
    simpa [Except.map] using h1.2.2.2.2.2.2.2.2.2.2.2.2.1
  · rw [hB]
    simpa [Except.map] using h2.2.2.2.2.2.2.2.2.2.1 200 rfl rfl
  · rw [hB]
    simpa [Except.map] using h2.2.2.2.1 rfl

/-- C6: a Create payload missing a required field (item, quantity,
price_per_item, order_date for Order; amount, currency, status, method for
Payment) fails validation with an error list naming that missing field,
whatever the other fields hold. -/
theorem claim_C6 :
    (∀ (fresh : Nat) (p : Payload), List.lookup "item" p = none →
      orderValidateCreate fresh p = Except.error (orderBaseErrs fresh p) ∧
      FieldErr.missing "item" ∈ orderBaseErrs fresh p) ∧
    (∀ (fresh : Nat) (p : Payload), List.lookup "quantity" p = none →
      orderValidateCreate fresh p = Except.error (orderBaseErrs fresh p) ∧
      FieldErr.missing "quantity" ∈ orderBaseErrs fresh p) ∧
    (∀ (fresh : Nat) (p : Payload), List.lookup "price_per_item" p = none →
      orderValidateCreate fresh p = Except.error (orderBaseErrs fresh p) ∧
      FieldErr.missing "price_per_item" ∈ orderBaseErrs fresh p) ∧
    (∀ (fresh : Nat) (p : Payload), List.lookup "order_date" p = none →
      orderValidateCreate fresh p = Except.error (orderBaseErrs fresh p) ∧
      FieldErr.missing "order_date" ∈ orderBaseErrs fresh p) ∧
    (∀ (fresh : Nat) (p : Payload), List.lookup "amount" p = none →
      paymentValidateCreate fresh p = Except.error (paymentBaseErrs fresh p) ∧
      FieldErr.missing "amount" ∈ paymentBaseErrs fresh p) ∧
    (∀ (fresh : Nat) (p : Payload), List.lookup "currency" p = none →
      paymentValidateCreate fresh p = Except.error (paymentBaseErrs fresh p) ∧
      FieldErr.missing "currency" ∈ paymentBaseErrs fresh p) ∧
    (∀ (fresh : Nat) (p : Payload), List.lookup "status" p = none →
      paymentValidateCreate fresh p = Except.error (paymentBaseErrs fresh p) ∧
      FieldErr.missing "status" ∈ paymentBaseErrs fresh p) ∧
    (∀ (fresh : Nat) (p : Payload), List.lookup "method" p = none →
      paymentValidateCreate fresh p = Except.error (paymentBaseErrs fresh p) ∧
      FieldErr.missing "method" ∈ paymentBaseErrs fresh p) := by
  refine ⟨?_, ?_, ?_, ?_, ?_, ?_, ?_, ?_⟩
  · intro fresh p hl
    have hmem : FieldErr.missing "item" ∈ orderBaseErrs fresh p := by
      simp [orderBaseErrs, hl, parseReqStr, errsOf]
    refine ⟨?_, hmem⟩
    simp only [orderValidateCreate]
    exact orderValidateBase_err (List.ne_nil_of_mem hmem)
  · intro fresh p hl
    have hmem : FieldErr.missing "quantity" ∈ orderBaseErrs fresh p := by
      simp [orderBaseErrs, hl, parseReqInt, errsOf]
    refine ⟨?_, hmem⟩
    simp only [orderValidateCreate]
    exact orderValidateBase_err (List.ne_nil_of_mem hmem)
  · intro fresh p hl
    have hmem : FieldErr.missing "price_per_item" ∈ orderBaseErrs fresh p := by
      simp [orderBaseErrs, hl, parseReqNum, errsOf]
    refine ⟨?_, hmem⟩
    simp only [orderValidateCreate]
    exact orderValidateBase_err (List.ne_nil_of_mem hmem)
  · intro fresh p hl
    have hmem : FieldErr.missing "order_date" ∈ orderBaseErrs fresh p := by
      simp [orderBaseErrs, hl, parseReqDate, errsOf]
    refine ⟨?_, hmem⟩
    simp only [orderValidateCreate]
    exact orderValidateBase_err (List.ne_nil_of_mem hmem)
  · intro fresh p hl
    have hmem : FieldErr.missing "amount" ∈ paymentBaseErrs fresh p := by
      simp [paymentBaseErrs, hl, parseReqNum, errsOf]
    refine ⟨?_, hmem⟩
    simp only [paymentValidateCreate]
    exact paymentValidateBase_err (List.ne_nil_of_mem hmem)
  · intro fresh p hl
    have hmem : FieldErr.missing "currency" ∈ paymentBaseErrs fresh p := by
      simp [paymentBaseErrs, hl, parseReqStr, errsOf]
    refine ⟨?_, hmem⟩
    simp only [paymentValidateCreate]
    exact paymentValidateBase_err (List.ne_nil_of_mem hmem)
  · intro fresh p hl
    have hmem : FieldErr.missing "status" ∈ paymentBaseErrs fresh p := by
      simp [paymentBaseErrs, hl, parseReqStr, errsOf]
    refine ⟨?_, hmem⟩
    simp only [paymentValidateCreate]
    exact paymentValidateBase_err (List.ne_nil_of_mem hmem)
  · intro fresh p hl
    have hmem : FieldErr.missing "method" ∈ paymentBaseErrs fresh p := by
      simp [paymentBaseErrs, hl, parseReqStr, errsOf]
    refine ⟨?_, hmem⟩
    simp only [paymentValidateCreate]
    exact paymentValidateBase_err (List.ne_nil_of_mem hmem)

/-- C6 witness: the claim applied to the empty payload, missing all required
fields of both families. -/
theorem claim_C6_wit :
    orderValidateCreate 1 [] = Except.error (orderBaseErrs 1 []) ∧
      FieldErr.missing "item" ∈ orderBaseErrs 1 [] ∧
      FieldErr.missing "quantity" ∈ orderBaseErrs 1 [] ∧
      FieldErr.missing "price_per_item" ∈ orderBaseErrs 1 [] ∧
      FieldErr.missing "order_date" ∈ orderBaseErrs 1 [] ∧
      paymentValidateCreate 1 [] = Except.error (paymentBaseErrs 1 []) ∧
      FieldErr.missing "amount" ∈ paymentBaseErrs 1 [] ∧
      FieldErr.missing "currency" ∈ paymentBaseErrs 1 [] ∧
      FieldErr.missing "status" ∈ paymentBaseErrs 1 [] ∧
      FieldErr.missing "method" ∈ paymentBaseErrs 1 [] := by
  exact ⟨(claim_C6.1 1 [] rfl).1, (claim_C6.1 1 [] rfl).2,
    (claim_C6.2.1 1 [] rfl).2, (claim_C6.2.2.1 1 [] rfl).2,
    (claim_C6.2.2.2.1 1 [] rfl).2, (claim_C6.2.2.2.2.1 1 [] rfl).1,
    (claim_C6.2.2.2.2.1 1 [] rfl).2, (claim_C6.2.2.2.2.2.1 1 [] rfl).2,
    (claim_C6.2.2.2.2.2.2.1 1 [] rfl).2, (claim_C6.2.2.2.2.2.2.2 1 [] rfl).2⟩

/-- C7 counterexample: an Order Create payload whose item is the empty string
validates successfully with item equal to the empty string -- no
non-emptiness constraint is enforced. -/
theorem claim_C7_cex :
    orderValidateCreate 1 payOrderEmptyItem =
      Except.ok ⟨1, some adaP, "", 2, 999, 738⟩ := by
  exact rfl

/-- C7 (amended): the Order item field is required on create -- omitting it
fails with an error naming item -- but any string value is accepted,
including the empty string: no non-emptiness constraint exists. -/
theorem claim_C7 :
    (∀ (fresh : Nat) (p : Payload), List.lookup "item" p = none →
      orderValidateCreate fresh p = Except.error (orderBaseErrs fresh p) ∧
      FieldErr.missing "item" ∈ orderBaseErrs fresh p) ∧
    (∀ (fresh : Nat) (p : Payload) (s : String) (o : Order),
      List.lookup "item" p = some (Value.vstr s) →
      orderValidateCreate fresh p = Except.ok o → o.item = s) := by
  constructor
  · intro fresh p hl
    have hmem : FieldErr.missing "item" ∈ orderBaseErrs fresh p := by
      simp [orderBaseErrs, hl, parseReqStr, errsOf]
    refine ⟨?_, hmem⟩
    simp only [orderValidateCreate]
    exact orderValidateBase_err (List.ne_nil_of_mem hmem)
  · intro fresh p s o hl h
    simp only [orderValidateCreate] at h
    rw [orderValidateBase_ok h]
    simp [hl, parseReqStr, getOk]

/-- C7 witness: the amended claim applied to the empty payload (item absent)
and to the concrete payload with an empty-string item. -/
theorem claim_C7_wit :
    orderValidateCreate 3 [] = Except.error (orderBaseErrs 3 []) ∧
      FieldErr.missing "item" ∈ orderBaseErrs 3 [] ∧
      Except.map (fun o => o.item) (orderValidateCreate 1 payOrderEmptyItem) =
        Except.ok "" := by
  have hA : orderValidateCreate 1 payOrderEmptyItem =
      Except.ok ⟨1, some adaP, "", 2, 999, 738⟩ := rfl
  have h2 := claim_C7.2 1 payOrderEmptyItem "" _ rfl hA
  refine ⟨(claim_C7.1 3 [] rfl).1, (claim_C7.1 3 [] rfl).2, ?_⟩
  rw [hA]
  simpa [Except.map] using h2

/-- C8: a record produced by creation (created_at = updated_at = commit
instant) and then modified by any sequence of merges whose instants respect
the clock contract (each at least the preceding updated_at) always satisfies
updated_at at least created_at, for both families. -/
theorem claim_C8 :
    (∀ (fresh t0 : Nat) (p : Payload) (o : Order)
        (steps : List (OrderUpdate × Nat)),
      orderValidateCreate fresh p = Except.ok o →
      List.Chain (fun a b => a ≤ b) t0 (steps.map Prod.snd) →
      (orderApplyUpdates (orderProjectRead o t0 t0) steps).created_at ≤
        (orderApplyUpdates (orderProjectRead o t0 t0) steps).updated_at) ∧
    (∀ (fresh t0 : Nat) (p : Payload) (o : Payment)
        (steps : List (PaymentUpdate × Nat)),
      paymentValidateCreate fresh p = Except.ok o →
      List.Chain (fun a b => a ≤ b) t0 (steps.map Prod.snd) →
      (paymentApplyUpdates (paymentProjectRead o t0 t0) steps).created_at ≤
        (paymentApplyUpdates (paymentProjectRead o t0 t0) steps).updated_at) := by
  constructor
  · intro fresh t0 p o steps _ hchain
    exact orderApplyUpdates_inv steps (orderProjectRead o t0 t0)
      (le_refl t0) hchain
  · intro fresh t0 p o steps _ hchain
    exact paymentApplyUpdates_inv steps (paymentProjectRead o t0 t0)
      (le_refl t0) hchain

/-- C8 witness: a concrete creation at instant 20 followed by one concrete
merge at instant 30, for both families. -/
theorem claim_C8_wit :
    (orderApplyUpdates
        (orderProjectRead ⟨5, some adaP, "Laptop", 2, 999, 738⟩ 20 20)
        [(uOrderQty7, 30)]).created_at ≤
      (orderApplyUpdates
        (orderProjectRead ⟨5, some adaP, "Laptop", 2, 999, 738⟩ 20 20)
        [(uOrderQty7, 30)]).updated_at ∧
    (paymentApplyUpdates
        (paymentProjectRead ⟨5, some adaP, some babbageP, 150, "USD",
          "completed", "credit card", none⟩ 20 20)
        [(uPayAmt, 30)]).created_at ≤
      (paymentApplyUpdates
        (paymentProjectRead ⟨5, some adaP, some babbageP, 150, "USD",
          "completed", "credit card", none⟩ 20 20)
        [(uPayAmt, 30)]).updated_at := by
  constructor
  · exact claim_C8.1 5 20 payOrderFull _ [(uOrderQty7, 30)] rfl
      (List.Chain.cons (by decide) List.Chain.nil)
  · exact claim_C8.2 5 20 payPayFull _ [(uPayAmt, 30)] rfl
      (List.Chain.cons (by decide) List.Chain.nil)

/-- C9: a Create payload omitting the customer key (Order), or the sender or
receiver key (Payment), validates successfully even though the field is
conceptually mandatory and its declared annotation is a non optional Person:
the resulting record holds the sentinel None for that field. -/
theorem claim_C9 :
    (∀ (fresh : Nat) (p : Payload) (s : String) (n : Int) (a : Rat) (d : Nat),
      List.lookup "customer" p = none → List.lookup "id" p = none →
      List.lookup "item" p = some (Value.vstr s) →
      List.lookup "quantity" p = some (Value.vint n) →
      List.lookup "price_per_item" p = some (Value.vnum a) →
      List.lookup "order_date" p = some (Value.vdate d) →
      orderValidateCreate fresh p = Except.ok ⟨fresh, none, s, n, a, d⟩) ∧
    (∀ (fresh : Nat) (p : Payload) (c2 : Person) (a : Rat) (cu st m : String),
      List.lookup "sender" p = none → List.lookup "id" p = none →
      List.lookup "birth_date" p = none →
      List.lookup "receiver" p = some (Value.vperson c2) →
      List.lookup "amount" p = some (Value.vnum a) →
      List.lookup "currency" p = some (Value.vstr cu) →
      List.lookup "status" p = some (Value.vstr st) →
      List.lookup "method" p = some (Value.vstr m) →
      paymentValidateCreate fresh p =
        Except.ok ⟨fresh, none, some c2, a, cu, st, m, none⟩) ∧
    (∀ (fresh : Nat) (p : Payload) (c1 : Person) (a : Rat) (cu st m : String),
      List.lookup "receiver" p = none → List.lookup "id" p = none →
      List.lookup "birth_date" p = none →
      List.lookup "sender" p = some (Value.vperson c1) →
      List.lookup "amount" p = some (Value.vnum a) →
      List.lookup "currency" p = some (Value.vstr cu) →
      List.lookup "status" p = some (Value.vstr st) →
      List.lookup "method" p = some (Value.vstr m) →
      paymentValidateCreate fresh p =
        Except.ok ⟨fresh, some c1, none, a, cu, st, m, none⟩) := by
  refine ⟨?_, ?_, ?_⟩
  · intro fresh p s n a d h1 h2 h3 h4 h5 h6
    simp [orderValidateCreate, orderValidateBase, orderBaseErrs,
      h1, h2, h3, h4, h5, h6, parseDefUuid, parseNullDefPerson, parseReqStr,
      parseReqInt, parseReqNum, parseReqDate, errsOf, getOk]
  · intro fresh p c2 a cu st m h1 h2 h3 h4 h5 h6 h7 h8
    simp [paymentValidateCreate, paymentValidateBase, paymentBaseErrs,
      h1, h2, h3, h4, h5, h6, h7, h8, parseDefUuid, parseNullDefPerson,
      parseReqNum, parseReqStr, parseOptDate, errsOf, getOk]
  · intro fresh p c1 a cu st m h1 h2 h3 h4 h5 h6 h7 h8
    simp [paymentValidateCreate, paymentValidateBase, paymentBaseErrs,
      h1, h2, h3, h4, h5, h6, h7, h8, parseDefUuid, parseNullDefPerson,
      parseReqNum, parseReqStr, parseOptDate, errsOf, getOk]

/-- C9 witness: concrete payloads omitting customer, sender and receiver
respectively all validate, with None stored for the omitted Person. -/
theorem claim_C9_wit :
    orderValidateCreate 4 payOrderNoCust =
        Except.ok ⟨4, none, "Laptop", 2, 999, 738⟩ ∧
      paymentValidateCreate 4 payPayNoSender =
        Except.ok ⟨4, none, some babbageP, 150, "USD", "completed",
          "credit card", none⟩ ∧
      paymentValidateCreate 4 payPayNoReceiver =
        Except.ok ⟨4, some adaP, none, 150, "USD", "completed",
          "credit card", none⟩ := by
  exact ⟨claim_C9.1 4 payOrderNoCust "Laptop" 2 999 738 rfl rfl rfl rfl rfl rfl,
    claim_C9.2.1 4 payPayNoSender babbageP 150 "USD" "completed" "credit card"
      rfl rfl rfl rfl rfl rfl rfl rfl,
    claim_C9.2.2 4 payPayNoReceiver adaP 150 "USD" "completed" "credit card"
      rfl rfl rfl rfl rfl rfl rfl rfl⟩

/-- C10: for every variant of both families, appending unknown extra keys to
a payload never changes the validation outcome: the extended payload
validates to exactly the same result (the extra keys are silently
ignored). -/
theorem claim_C10 :
    (∀ (p extra : Payload) (fresh : Nat),
      (∀ kv ∈ extra, kv.1 ∉ orderBaseFields) →
      orderValidateBase fresh (p ++ extra) = orderValidateBase fresh p) ∧
    (∀ (p extra : Payload) (fresh : Nat),
      (∀ kv ∈ extra, kv.1 ∉ orderBaseFields) →
      orderValidateCreate fresh (p ++ extra) = orderValidateCreate fresh p) ∧
    (∀ p extra : Payload,
      (∀ kv ∈ extra, kv.1 ∉ orderUpdateFields) →
      orderValidateUpdate (p ++ extra) = orderValidateUpdate p) ∧
    (∀ (p extra : Payload) (fresh tc tu : Nat),
      (∀ kv ∈ extra, kv.1 ∉ orderReadFields) →
      orderValidateRead fresh tc tu (p ++ extra) =
        orderValidateRead fresh tc tu p) ∧
    (∀ (p extra : Payload) (fresh : Nat),
      (∀ kv ∈ extra, kv.1 ∉ paymentBaseFields) →
      paymentValidateBase fresh (p ++ extra) = paymentValidateBase fresh p) ∧
    (∀ (p extra : Payload) (fresh : Nat),
      (∀ kv ∈ extra, kv.1 ∉ paymentBaseFields) →
      paymentValidateCreate fresh (p ++ extra) = paymentValidateCreate fresh p) ∧
    (∀ p extra : Payload,
      (∀ kv ∈ extra, kv.1 ∉ paymentUpdateFields) →
      paymentValidateUpdate (p ++ extra) = paymentValidateUpdate p) ∧
    (∀ (p extra : Payload) (fresh tc tu : Nat),
      (∀ kv ∈ extra, kv.1 ∉ paymentReadFields) →
      paymentValidateRead fresh tc tu (p ++ extra) =
        paymentValidateRead fresh tc tu p) := by
  refine ⟨?_, ?_, ?_, ?_, ?_, ?_, ?_, ?_⟩
  · intro p extra fresh hext
    apply orderValidateBase_congr
    intro f hf
    exact lookupAppendOfNone p extra
      (lookupOfKeysNe extra (fun kv hkv he => hext kv hkv (he ▸ hf)))
  · intro p extra fresh hext
    simp only [orderValidateCreate]
    apply orderValidateBase_congr
    intro f hf
    exact lookupAppendOfNone p extra
      (lookupOfKeysNe extra (fun kv hkv he => hext kv hkv (he ▸ hf)))
  · intro p extra hext
    apply orderValidateUpdate_congr
    intro f hf
    exact lookupAppendOfNone p extra
      (lookupOfKeysNe extra (fun kv hkv he => hext kv hkv (he ▸ hf)))
  · intro p extra fresh tc tu hext
    apply orderValidateRead_congr
    intro f hf
    exact lookupAppendOfNone p extra
      (lookupOfKeysNe extra (fun kv hkv he => hext kv hkv (he ▸ hf)))
  · intro p extra fresh hext
    apply paymentValidateBase_congr
    intro f hf
    exact lookupAppendOfNone p extra
      (lookupOfKeysNe extra (fun kv hkv he => hext kv hkv (he ▸ hf)))
  · intro p extra fresh hext
    simp only [paymentValidateCreate]
    apply paymentValidateBase_congr
    intro f hf
    exact lookupAppendOfNone p extra
      (lookupOfKeysNe extra (fun kv hkv he => hext kv hkv (he ▸ hf)))
  · intro p extra hext
    apply paymentValidateUpdate_congr
    intro f hf
    exact lookupAppendOfNone p extra
      (lookupOfKeysNe extra (fun kv hkv he => hext kv hkv (he ▸ hf)))
  · intro p extra fresh tc tu hext
    apply paymentValidateRead_congr
    intro f hf
    exact lookupAppendOfNone p extra
      (lookupOfKeysNe extra (fun kv hkv he => hext kv hkv (he ▸ hf)))

/-- C10 witness: an unknown key zzz appended to concrete payloads of every
variant of both families leaves each validation result unchanged. -/
theorem claim_C10_wit :
    orderValidateBase 5 (payOrderFull ++ [("zzz", Value.vint 1)]) =
        orderValidateBase 5 payOrderFull ∧
      orderValidateCreate 5 (payOrderFull ++ [("zzz", Value.vint 1)]) =
        orderValidateCreate 5 payOrderFull ∧
      orderValidateUpdate ([("quantity", Value.vint 5)] ++ [("zzz", Value.vint 1)]) =
        orderValidateUpdate [("quantity", Value.vint 5)] ∧
      orderValidateRead 5 50 50 (payOrderFull ++ [("zzz", Value.vint 1)]) =
        orderValidateRead 5 50 50 payOrderFull ∧
      paymentValidateBase 5 (payPayFull ++ [("zzz", Value.vint 1)]) =
        paymentValidateBase 5 payPayFull ∧
      paymentValidateCreate 5 (payPayFull ++ [("zzz", Value.vint 1)]) =
        paymentValidateCreate 5 payPayFull ∧
      paymentValidateUpdate ([("amount", Value.vint 5)] ++ [("zzz", Value.vint 1)]) =
        paymentValidateUpdate [("amount", Value.vint 5)] ∧
      paymentValidateRead 5 50 50 (payPayFull ++ [("zzz", Value.vint 1)]) =
        paymentValidateRead 5 50 50 payPayFull := by
  exact ⟨claim_C10.1 payOrderFull [("zzz", Value.vint 1)] 5 (by decide),
    claim_C10.2.1 payOrderFull [("zzz", Value.vint 1)] 5 (by decide),
    claim_C10.2.2.1 [("quantity", Value.vint 5)] [("zzz", Value.vint 1)]
      (by decide),
    claim_C10.2.2.2.1 payOrderFull [("zzz", Value.vint 1)] 5 50 50 (by decide),
    claim_C10.2.2.2.2.1 payPayFull [("zzz", Value.vint 1)] 5 (by decide),
    claim_C10.2.2.2.2.2.1 payPayFull [("zzz", Value.vint 1)] 5 (by decide),
    claim_C10.2.2.2.2.2.2.1 [("amount", Value.vint 5)] [("zzz", Value.vint 1)]
      (by decide),
    claim_C10.2.2.2.2.2.2.2 payPayFull [("zzz", Value.vint 1)] 5 50 50
      (by decide)⟩

end SimpleMicro
